import Mathlib

/-!
Verification of the RGB wallet core (mound / stockpile / builder layer).

This file gives a shallow embedding, in Lean 4, of the code in
`src/mound.rs`, `src/stockpile.rs` and `src/interface/builder.rs` of the
`rgb-wallet` repository, and proves (or refutes) a set of claims about it.

Conventions of the embedding:
* a byte stream is a `List Nat` (each entry a byte value);
* strict-decoding of a fixed-size field reads that many bytes and fails when
  the stream is shorter (`readBytes`);
* Rust `Result<_, E>` becomes `Except E _`; a Rust panic (`panic!`,
  `.expect(..)`) is a distinguished outcome of its own;
* `BTreeMap` becomes an association list with `alLookup` / `alInsert`
  (insert overwrites the value of an existing key and otherwise appends);
* types owned by external crates (hypersonic, strict_types, rgb-core) that
  the code under verification only passes around are embedded as opaque
  payloads (`Nat`) or as parameters, following the specification text that
  describes those collaborators.
-/

/-- A byte stream. -/
abbrev ByteStream : Type := List Nat

/-- Strict-decoding of a fixed-width field: read exactly `n` bytes from the
stream, failing (decode error) when the stream is shorter. -/
def readBytes (n : Nat) (s : ByteStream) : Option (List Nat × ByteStream) :=
  if n ≤ s.length then some (s.take n, s.drop n) else none

/-- Lower-case hex digit of a nibble, as produced by `amplify::hex::ToHex`. -/
def hexDigit (n : Nat) : Char :=
  if n < 10 then Char.ofNat (48 + n) else Char.ofNat (87 + n)

/-- Lower-case hex string of a byte list, as `ToHex::to_hex` produces for
`Bytes16` in `MoundConsumeError::UnrecognizedMagic`. -/
def toHex (bs : List Nat) : List Char :=
  (bs.map (fun b => [hexDigit (b / 16), hexDigit (b % 16)])).flatten

/-- `MAGIC_BYTES_CONSIGNMENT = *b"RGB CONSIGNMENT\0"` (src/mound.rs:42). -/
def MAGIC_BYTES_CONSIGNMENT : List Nat :=
  [82, 71, 66, 32, 67, 79, 78, 83, 73, 71, 78, 77, 69, 78, 84, 0]

/-- Association-list lookup (model of `BTreeMap::get`). -/
def alLookup {κ ν : Type} [DecidableEq κ] (k : κ) : List (κ × ν) → Option ν
  | [] => none
  | (k₂, v) :: rest => if k₂ = k then some v else alLookup k rest

/-- Association-list insert (model of `BTreeMap::insert`): overwrites the
value stored under an existing key, otherwise appends the new binding. -/
def alInsert {κ ν : Type} [DecidableEq κ] (k : κ) (v : ν) :
    List (κ × ν) → List (κ × ν)
  | [] => [(k, v)]
  | (k₂, v₂) :: rest =>
    if k₂ = k then (k, v) :: rest else (k₂, v₂) :: alInsert k v rest

/-- Content-addressed 32-byte contract identifier, kept as its byte encoding
(the form in which `Mound::consume` decodes it from the stream). -/
abbrev ContractId : Type := List Nat

/-- Codex identifier (opaque: only compared for equality and used as a map
key by the code under verification). -/
abbrev CodexId : Type := Nat

/-- Proof-of-publication layer (`hypersonic::Consensus`, external crate):
the mound code only compares values of this enum for equality. -/
inductive Consensus : Type
  | none
  | bitcoin
  | liquid
  | prime
deriving DecidableEq

/-- Contract-creation parameters (`CreateParams` in src/stockpile.rs).
The fields the mound inspects are `codex_id`, `consensus` and `testnet`;
the remaining fields (`method`, `name`, `timestamp`, `global`, `owned`) are
passed through to `Stockpile::issue` untouched and are embedded as one
opaque payload. -/
structure CreateParams where
  codexId : CodexId
  consensus : Consensus
  testnet : Bool
  payload : Nat
deriving DecidableEq

/-- `IssueError` (src/mound.rs:225-236). -/
inductive IssueError : Type
  | consensusMismatch
  | testnetMismatch
  | mainnetMismatch
  | unknownCodex (id : CodexId)
deriving DecidableEq

/-- `ConsumeError` variants of `Stockpile::consume` (src/stockpile.rs:419-434);
the payloads of the variants are irrelevant to the claims and dropped. -/
inductive ConsumeErr : Type
  | io
  | decode
  | merge
  | verify
deriving DecidableEq

/-- `MoundConsumeError` (src/mound.rs:238-250).  Envelope decode errors enter
through the `#[from(DecodeError)]` conversion into the `Inner` variant. -/
inductive MoundConsumeError : Type
  | unrecognizedMagic (hex : List Char)
  | unknownContract (id : ContractId)
  | inner (e : ConsumeErr)
deriving DecidableEq

/-- `Mound` (src/mound.rs:50-57), parameterized by the schema type `Sch` and
the per-contract stockpile type `Stk` (the Rust code is generic over the
supply, pile and persistence; persistence is not touched by the operations
under verification). -/
structure Mound (Sch Stk : Type) where
  consensus : Consensus
  testnet : Bool
  schemata : List (CodexId × Sch)
  contracts : List (ContractId × Stk)

/-- `Mound::schema` (src/mound.rs:125). -/
def Mound.schema {Sch Stk : Type} (m : Mound Sch Stk) (codexId : CodexId) :
    Option Sch :=
  alLookup codexId m.schemata

/-- `Mound::has_contract` (src/mound.rs:145). -/
def Mound.hasContract {Sch Stk : Type} (m : Mound Sch Stk) (id : ContractId) :
    Bool :=
  (alLookup id m.contracts).isSome

/-- `Mound::issue` (src/mound.rs:92-115).  The delegation to
`Stockpile::issue` (which builds the contract and computes its id) is the
parameter `mkContract`; the mound-level logic — the consensus gate, the
network gate, the codex lookup and the insertion of the new contract — is
embedded verbatim. -/
def Mound.issue {Sch Stk : Type} (mkContract : Sch → CreateParams → ContractId × Stk)
    (m : Mound Sch Stk) (params : CreateParams) :
    Except IssueError ContractId × Mound Sch Stk :=
  if params.consensus ≠ m.consensus then
    (.error .consensusMismatch, m)
  else if params.testnet ≠ m.testnet then
    (.error (if params.testnet then .testnetMismatch else .mainnetMismatch), m)
  else
    match m.schema params.codexId with
    | none => (.error (.unknownCodex params.codexId), m)
    | some schema =>
      let (id, stockpile) := mkContract schema params
      (.ok id, { m with contracts := alInsert id stockpile m.contracts })

/-- `Mound::consign` (src/mound.rs:179-195): writes the 16 magic bytes, the
version `0x00u16` (strict-encoded little-endian as two zero bytes), the
contract id, and then delegates the rest of the stream to
`Stockpile::consign` (the parameter `stockConsign`).  `contract_mut` panics
on an unknown contract id; the panic is modelled as `none`. -/
def Mound.consign {Sch Stk : Type} (stockConsign : Stk → List Nat)
    (m : Mound Sch Stk) (contractId : ContractId) : Option (List Nat) :=
  match alLookup contractId m.contracts with
  | none => none
  | some stockpile =>
    some (MAGIC_BYTES_CONSIGNMENT ++ [0, 0] ++ contractId ++ stockConsign stockpile)

/-- `Mound::consume` (src/mound.rs:197-222).  Decodes `Bytes16`, checks the
magic, decodes the two reserved version bytes (`ReservedBytes::<2>`, whose
strict decoding fails on a non-zero byte), decodes the 32-byte contract id,
checks the registry, and only then delegates to `Stockpile::consume` (the
parameter `stockConsume`, which returns the outcome together with the
possibly-mutated stockpile).  Envelope decode failures become
`MoundConsumeError.inner .decode`, as the `#[from(DecodeError)]` conversion
does in the source. -/
def Mound.consume {Sch Stk : Type}
    (stockConsume : Stk → ByteStream → Except ConsumeErr Unit × Stk)
    (m : Mound Sch Stk) (s : ByteStream) :
    Except MoundConsumeError Unit × Mound Sch Stk :=
  match readBytes 16 s with
  | none => (.error (.inner .decode), m)
  | some (magicBytes, s₁) =>
    if magicBytes ≠ MAGIC_BYTES_CONSIGNMENT then
      (.error (.unrecognizedMagic (toHex magicBytes)), m)
    else
      match readBytes 2 s₁ with
      | none => (.error (.inner .decode), m)
      | some (version, s₂) =>
        if version ≠ [0, 0] then (.error (.inner .decode), m)
        else
          match readBytes 32 s₂ with
          | none => (.error (.inner .decode), m)
          | some (contractId, s₃) =>
            match alLookup contractId m.contracts with
            | none => (.error (.unknownContract contractId), m)
            | some stockpile =>
              match stockConsume stockpile s₃ with
              | (.ok (), stockpile₂) =>
                (.ok (), { m with contracts := alInsert contractId stockpile₂ m.contracts })
              | (.error e, stockpile₂) =>
                (.error (.inner e),
                 { m with contracts := alInsert contractId stockpile₂ m.contracts })

/-- A trivial stockpile-consume delegate used by concrete witness instances. -/
def trivialConsume : Nat → ByteStream → Except ConsumeErr Unit × Nat :=
  fun stk _ => (.ok (), stk)

/-- A concrete empty mound used by witness instances. -/
def emptyMound : Mound Nat Nat :=
  { consensus := .bitcoin, testnet := true, schemata := [], contracts := [] }

/-- A concrete mound holding one contract (id = 32 bytes of value 1,
stockpile payload 7) used by witness instances. -/
def oneContractMound : Mound Nat Nat :=
  { consensus := .bitcoin, testnet := true, schemata := [(5, 9)],
    contracts := [(List.replicate 32 1, 7)] }

/-- An owned-state assignment (`Assignment<Seal>` in src/stockpile.rs:94-97):
a seal together with its strict value (the value is opaque to the code under
verification and embedded as `Nat`).  The Rust field `seal` is rendered
`seal'` because `seal` is a reserved word in Lean. -/
structure Assignment (Seal : Type) where
  seal' : Seal
  data : Nat
deriving DecidableEq

/-- `ContractState<Seal>` (src/stockpile.rs:108-112).  `StateName` keys,
`CellAddr` addresses and `StateAtom` / `StrictVal` payloads are opaque to
the functions under verification and embedded as `Nat` (addresses as
`Nat × Nat`, an opid/position pair). -/
structure ContractState (Seal : Type) where
  immutable : List (Nat × List ((Nat × Nat) × Nat))
  owned : List (Nat × List ((Nat × Nat) × Assignment Seal))
  computed : List (Nat × Nat)

/-- `ContractState::map` (src/stockpile.rs:115-133): rebuilds the owned
maps, applying `f` to each assignment seal and keeping everything else. -/
def ContractState.map {Seal To : Type} (s : ContractState Seal) (f : Seal → To) :
    ContractState To :=
  { immutable := s.immutable
    owned := s.owned.map (fun nm =>
      (nm.1, nm.2.map (fun ad =>
        (ad.1, { seal' := f ad.2.seal', data := ad.2.data }))))
    computed := s.computed }

/-- `ContractState::filter_map` (src/stockpile.rs:135-153): rebuilds the
owned maps, keeping an assignment exactly when `f` yields `some` on its
seal. -/
def ContractState.filterMap {Seal To : Type} (s : ContractState Seal)
    (f : Seal → Option To) : ContractState To :=
  { immutable := s.immutable
    owned := s.owned.map (fun nm =>
      (nm.1, nm.2.filterMap (fun ad =>
        (f ad.2.seal').map (fun t => (ad.1, { seal' := t, data := ad.2.data })))))
    computed := s.computed }

/-- Outcome of one strict-decode call inside the consignment operation
stream: success, an `Io(UnexpectedEof)` error, or any other decode error. -/
inductive DecodeRes (α : Type) : Type
  | ok (a : α)
  | eofErr
  | failErr

/-- An operation as read from the stream (`hypersonic::Operation`, external
crate): its payload is opaque; `destructible` is the slice of state cells
handed to the seal resolver. -/
structure Operation where
  payload : Nat
  destructible : List Nat
deriving DecidableEq

/-- `OperationSeals` (rgb crate): an operation together with its defined
seals (seals are opaque `Nat`). -/
structure OperationSeals where
  operation : Operation
  definedSeals : List Nat
deriving DecidableEq

/-- The strict decoders that `OpReader` / `WitnessReader` invoke
(`Operation::strict_decode`, `SmallVec::strict_decode`,
`u64::strict_decode`, `SealWitness::strict_decode` — all in external
crates): embedded as a parameter record. -/
structure OpCodec where
  decodeOp : ByteStream → DecodeRes (Operation × ByteStream)
  decodeSeals : ByteStream → DecodeRes (List Nat × ByteStream)
  decodeU64 : ByteStream → DecodeRes (Nat × ByteStream)
  decodeWitness : ByteStream → DecodeRes (Nat × ByteStream)

/-- Outcome of `OpReader::read_operation` (src/stockpile.rs:350-369):
`stop` is the `None` return (end of the operation stream), `next` the
`Some` return, and `panicked` the `panic!` / `.expect(..)` branches. -/
inductive ReadOpResult : Type
  | stop
  | next (ops : OperationSeals) (witnessCount : Nat) (rest : ByteStream)
  | panicked
deriving DecidableEq

/-- `OpReader::read_operation` (src/stockpile.rs:350-369), embedded verbatim:
a failed operation decode returns `None` only for `Io(UnexpectedEof)` and
panics otherwise; the defined-seals decode and the witness-count decode
panic (`.expect("Failed to read consignment stream")`) on every failure,
end-of-file included. -/
def OpReader.readOperation (c : OpCodec) (resolver : List Nat → List Nat)
    (s : ByteStream) : ReadOpResult :=
  match c.decodeOp s with
  | .ok (op, s₁) =>
    (match c.decodeSeals s₁ with
     | .ok (seals, s₂) =>
       (match c.decodeU64 s₂ with
        | .ok (count, s₃) =>
          .next { operation := op, definedSeals := seals ++ resolver op.destructible }
            count s₃
        | _ => .panicked)
     | _ => .panicked)
  | .eofErr => .stop
  | .failErr => .panicked

/-- Outcome of `WitnessReader::read_witness` (src/stockpile.rs:383-395):
`complete` is `Step::Complete` (back to the operation reader), `next` is
`Step::Next`, and `panicked` the `panic!` branch. -/
inductive ReadWitnessResult : Type
  | complete (s : ByteStream)
  | next (w : Nat) (left : Nat) (s : ByteStream)
  | panicked
deriving DecidableEq

/-- `WitnessReader::read_witness` (src/stockpile.rs:383-395), embedded
verbatim: every witness decode failure panics. -/
def WitnessReader.readWitness (c : OpCodec) (left : Nat) (s : ByteStream) :
    ReadWitnessResult :=
  if left = 0 then .complete s
  else
    match c.decodeWitness s with
    | .ok (w, s₂) => .next w (left - 1) s₂
    | _ => .panicked

/-- A codec in which every strict decode fails with a non-end-of-file
decode error — the behaviour of the real codecs on a malformed (corrupt)
operation section. -/
def failOpCodec : OpCodec :=
  { decodeOp := fun _ => .failErr
    decodeSeals := fun _ => .failErr
    decodeU64 := fun _ => .failErr
    decodeWitness := fun _ => .failErr }

/-- A codec in which every strict decode fails with `Io(UnexpectedEof)` —
the behaviour of the real codecs on a truncated stream. -/
def eofOpCodec : OpCodec :=
  { decodeOp := fun _ => .eofErr
    decodeSeals := fun _ => .eofErr
    decodeU64 := fun _ => .eofErr
    decodeWitness := fun _ => .eofErr }

/-- Base layer of a seal (`rgb::Layer1`, external crate). -/
inductive Layer1 : Type
  | bitcoin
  | liquid
deriving DecidableEq

/-- Alternative base layer (`rgb::AltLayer1`, external crate; its only
variant is Liquid). -/
inductive AltLayer1 : Type
  | liquid
deriving DecidableEq

/-- Cross-chain wrapper (`rgb::XChain`, external crate): the variant decides
the layer-1 of the wrapped value. -/
inductive XChain (α : Type) : Type
  | bitcoin (a : α)
  | liquid (a : α)
deriving DecidableEq

/-- A seal under construction (`BuilderSeal<Seal>` from the containers
module of this repository, not under src/).  Modelled from the spec: a seal
is "bound to a specific base-chain UTXO or to an opaque AuthToken"; the
builder only ever asks a `BuilderSeal` for its layer-1, which the `XChain`
variant determines.  Concrete seal payloads are opaque (`Nat`). -/
inductive BuilderSeal (Seal : Type) : Type
  | revealed (x : XChain Seal)
  | concealed (x : XChain Nat)
deriving DecidableEq

/-- The layer-1 of a `BuilderSeal`, given by its `XChain` variant. -/
def BuilderSeal.layer1 {Seal : Type} : BuilderSeal Seal → Layer1
  | .revealed (.bitcoin _) => .bitcoin
  | .revealed (.liquid _) => .liquid
  | .concealed (.bitcoin _) => .bitcoin
  | .concealed (.liquid _) => .liquid

/-- Owned-state payload (`rgb::State`, external crate): serialized data
bytes plus an optional attachment id.  `State::default()` is empty data and
no attachment. -/
structure State where
  data : List Nat
  attach : Option Nat
deriving DecidableEq

/-- `BuilderError` (src/interface/builder.rs:43-101).  Error payloads of the
`#[from]` variants are opaque; the Rust variant `Calc` is rendered
`calcErr` because `calc` is a reserved word in Lean. -/
inductive BuilderError : Type
  | tooManyLayers1
  | metadataNotFound (name : String)
  | metadataInvalid
  | globalNotFound (name : String)
  | assignmentNotFound (name : String)
  | valencyNotFound (name : String)
  | transitionNotFound (name : String)
  | noOperationSubtype
  | noDefaultAssignment
  | invalidLayer1 (layer : Layer1)
  | calcErr (e : Nat)
  | strictEncode
  | reify
  | typifyErr
  | confinement
  | contractInconsistency
deriving DecidableEq

/-- Outcome of a builder method: a Rust `Ok`, a Rust `Err(BuilderError)`, or
a panic (`.expect(..)` on an internal invariant). -/
inductive BResult (α : Type) : Type
  | panicked
  | err (e : BuilderError)
  | ok (v : α)

/-- Monadic composition of builder outcomes (Rust `?` propagation). -/
def BResult.bind {α β : Type} : BResult α → (α → BResult β) → BResult β
  | .panicked, _ => .panicked
  | .err e, _ => .err e
  | .ok v, f => f v

/-- Whether a builder outcome is a Rust `Ok`. -/
def BResult.isOk {α : Type} : BResult α → Bool
  | .ok _ => true
  | _ => false

/-- The schema as the builder reads it (`rgb::Schema`, external crate):
numeric type id → semantic type id, for metadata, global and owned state
(`meta_types`, `global_types` reduced to its `sem_id`, `owned_types`
reduced to its `sem_id`). -/
structure SchemaModel where
  metaTypes : List (Nat × Nat)
  globalTypes : List (Nat × Nat)
  ownedTypes : List (Nat × Nat)
deriving DecidableEq

/-- Per-transition interface data (`TransitionIface`, external crate): the
builder reads only `default_assignment`. -/
structure TransitionIface where
  defaultAssignment : Option String
deriving DecidableEq

/-- Interface (`Iface`, external crate): the builder reads
`default_operation` and the named transitions. -/
structure Iface where
  defaultOperation : Option String
  transitions : List (String × TransitionIface)
deriving DecidableEq

/-- Interface implementation (`IfaceImpl`, external crate): name → numeric
type id maps plus the state ABI handle. -/
structure IfaceImpl where
  metaTypes : List (String × Nat)
  globalTypes : List (String × Nat)
  assignmentTypes : List (String × Nat)
  valencyTypes : List (String × Nat)
  transitionTypes : List (String × Nat)
  stateAbi : Nat
deriving DecidableEq

/-- The strict type system as the builder uses it (`strict_types`, external
crate), embedded as a parameter record: `typify` coerces a value against a
semantic type id; `serializeState` is
`strict_serialize_value::<STATE_DATA_MAX_LEN>`; `serializeRaw` is
`to_strict_serialized::<{u16::MAX}>` (used by the `serialize_*` methods and
`State::from_serialized`).  Values are opaque (`Nat`). -/
structure TypeSystemModel where
  typify : Nat → Nat → Except Unit Nat
  serializeState : Nat → Except Unit (List Nat)
  serializeRaw : Nat → Except Unit (List Nat)

/-- `Metadata::add_value` (rgb-core, external crate).  Modelled from the
spec: "append to `Metadata`.  Duplicate names are appended (cardinality is
checked at `complete`)"; the `MetadataError` path is not modelled. -/
def Metadata.addValue (meta : List (Nat × List Nat)) (ty : Nat) (data : List Nat) :
    List (Nat × List Nat) :=
  meta ++ [(ty, data)]

/-- `GlobalState::add_state` (rgb-core, external crate).  Modelled from the
spec: "globals: GlobalStateType → ordered list of state atoms", appended in
order; the confinement bound is not modelled. -/
def GlobalState.addState (g : List (Nat × List (List Nat))) (ty : Nat)
    (data : List Nat) : List (Nat × List (List Nat)) :=
  match alLookup ty g with
  | none => g ++ [(ty, [data])]
  | some atoms => alInsert ty (atoms ++ [data]) g

/-- Push one assignment into the typed-assignments map: a vacant entry gets
`TypedAssigns::with(assignment)`, an occupied entry gets the assignment
pushed onto its list, ordering preserved (the `match self.assignments.entry`
in `OperationBuilder::add_owned_state_raw`,
src/interface/builder.rs:770-777); the confinement bounds are not
modelled. -/
def assignmentsPush {Seal : Type} (asg : List (Nat × List (BuilderSeal Seal × State)))
    (ty : Nat) (a : BuilderSeal Seal × State) :
    List (Nat × List (BuilderSeal Seal × State)) :=
  match alLookup ty asg with
  | none => asg ++ [(ty, [a])]
  | some l => alInsert ty (l ++ [a]) asg

/-- `OperationBuilder<Seal>` (src/interface/builder.rs:594-605). -/
structure OperationBuilder (Seal : Type) where
  schema : SchemaModel
  iface : Iface
  iimpl : IfaceImpl
  global : List (Nat × List (List Nat))
  meta : List (Nat × List Nat)
  assignments : List (Nat × List (BuilderSeal Seal × State))
  types : TypeSystemModel

/-- `OperationBuilder::with` (src/interface/builder.rs:608-619); renamed
`create` because `with` is a reserved word in Lean. -/
def OperationBuilder.create {Seal : Type} (iface : Iface) (schema : SchemaModel)
    (iimpl : IfaceImpl) (types : TypeSystemModel) : OperationBuilder Seal :=
  { schema := schema, iface := iface, iimpl := iimpl,
    global := [], assignments := [], meta := [], types := types }

/-- `OperationBuilder::add_metadata` (src/interface/builder.rs:684-702):
resolve the name (`MetadataNotFound`), fetch the `SemId` from the schema
(`.expect("schema-interface inconsistency")` — a panic), typify
(`Typify`), serialize within `STATE_DATA_MAX_LEN` (`StrictEncode`), append
to the metadata. -/
def OperationBuilder.addMetadata {Seal : Type} (b : OperationBuilder Seal)
    (name : String) (value : Nat) : BResult (OperationBuilder Seal) :=
  match alLookup name b.iimpl.metaTypes with
  | none => .err (.metadataNotFound name)
  | some tyId =>
    match alLookup tyId b.schema.metaTypes with
    | none => .panicked
    | some semId =>
      match b.types.typify value semId with
      | .error _ => .err .typifyErr
      | .ok v =>
        match b.types.serializeState v with
        | .error _ => .err .strictEncode
        | .ok data => .ok { b with meta := Metadata.addValue b.meta tyId data }

/-- `OperationBuilder::serialize_metadata` (src/interface/builder.rs:704-720):
resolve the name, serialize the already-typed value (`StrictEncode`), fetch
the `SemId` (`meta_schema`, a panic when absent), append.  The
debug-assertion round-trip is debug-only and not modelled. -/
def OperationBuilder.serializeMetadata {Seal : Type} (b : OperationBuilder Seal)
    (name : String) (value : Nat) : BResult (OperationBuilder Seal) :=
  match alLookup name b.iimpl.metaTypes with
  | none => .err (.metadataNotFound name)
  | some tyId =>
    match b.types.serializeRaw value with
    | .error _ => .err .strictEncode
    | .ok data =>
      match alLookup tyId b.schema.metaTypes with
      | none => .panicked
      | some _ => .ok { b with meta := Metadata.addValue b.meta tyId data }

/-- `OperationBuilder::add_global_state` (src/interface/builder.rs:722-741). -/
def OperationBuilder.addGlobalState {Seal : Type} (b : OperationBuilder Seal)
    (name : String) (value : Nat) : BResult (OperationBuilder Seal) :=
  match alLookup name b.iimpl.globalTypes with
  | none => .err (.globalNotFound name)
  | some tyId =>
    match alLookup tyId b.schema.globalTypes with
    | none => .panicked
    | some semId =>
      match b.types.typify value semId with
      | .error _ => .err .typifyErr
      | .ok v =>
        match b.types.serializeState v with
        | .error _ => .err .strictEncode
        | .ok data => .ok { b with global := GlobalState.addState b.global tyId data }

/-- `OperationBuilder::serialize_global_state`
(src/interface/builder.rs:743-760). -/
def OperationBuilder.serializeGlobalState {Seal : Type} (b : OperationBuilder Seal)
    (name : String) (value : Nat) : BResult (OperationBuilder Seal) :=
  match alLookup name b.iimpl.globalTypes with
  | none => .err (.globalNotFound name)
  | some tyId =>
    match b.types.serializeRaw value with
    | .error _ => .err .strictEncode
    | .ok data =>
      match alLookup tyId b.schema.globalTypes with
      | none => .panicked
      | some _ => .ok { b with global := GlobalState.addState b.global tyId data }

/-- `OperationBuilder::add_owned_state_raw` (src/interface/builder.rs:762-779):
build the assignment from the seal and state and push it into the
assignments map. -/
def OperationBuilder.addOwnedStateRaw {Seal : Type} (b : OperationBuilder Seal)
    (tyId : Nat) (sl : BuilderSeal Seal) (st : State) :
    BResult (OperationBuilder Seal) :=
  .ok { b with assignments := assignmentsPush b.assignments tyId (sl, st) }

/-- `OperationBuilder::add_rights` (src/interface/builder.rs:781-791):
resolve the name (`AssignmentNotFound`), take `State::default()` with the
optional attachment, delegate to `add_owned_state_raw`. -/
def OperationBuilder.addRights {Seal : Type} (b : OperationBuilder Seal)
    (name : String) (sl : BuilderSeal Seal) (attach : Option Nat) :
    BResult (OperationBuilder Seal) :=
  match alLookup name b.iimpl.assignmentTypes with
  | none => .err (.assignmentNotFound name)
  | some tyId => b.addOwnedStateRaw tyId sl { data := [], attach := attach }

/-- `OperationBuilder::add_owned_state` (src/interface/builder.rs:793-815). -/
def OperationBuilder.addOwnedState {Seal : Type} (b : OperationBuilder Seal)
    (name : String) (sl : BuilderSeal Seal) (value : Nat) (attach : Option Nat) :
    BResult (OperationBuilder Seal) :=
  match alLookup name b.iimpl.assignmentTypes with
  | none => .err (.assignmentNotFound name)
  | some tyId =>
    match alLookup tyId b.schema.ownedTypes with
    | none => .panicked
    | some semId =>
      match b.types.typify value semId with
      | .error _ => .err .typifyErr
      | .ok v =>
        match b.types.serializeState v with
        | .error _ => .err .strictEncode
        | .ok data => b.addOwnedStateRaw tyId sl { data := data, attach := attach }

/-- `OperationBuilder::serialize_owned_state`
(src/interface/builder.rs:817-829): resolve the name, build the state with
`State::from_serialized` (a `SerializeError` becomes `StrictEncode`), set
the attachment, delegate. -/
def OperationBuilder.serializeOwnedState {Seal : Type} (b : OperationBuilder Seal)
    (name : String) (sl : BuilderSeal Seal) (value : Nat) (attach : Option Nat) :
    BResult (OperationBuilder Seal) :=
  match alLookup name b.iimpl.assignmentTypes with
  | none => .err (.assignmentNotFound name)
  | some tyId =>
    match b.types.serializeRaw value with
    | .error _ => .err .strictEncode
    | .ok data => b.addOwnedStateRaw tyId sl { data := data, attach := attach }

/-- `ContractBuilder` (src/interface/builder.rs:128-135); `GenesisSeal`
payloads are opaque (`Nat`); `scripts` and `issuer` are carried opaquely. -/
structure ContractBuilder where
  builder : OperationBuilder Nat
  testnet : Bool
  altLayers1 : List AltLayer1
  scripts : Nat
  issuer : Nat

/-- `ContractBuilder::with` (src/interface/builder.rs:137-153); renamed
`create` because `with` is a reserved word in Lean: testnet defaults to
true, `alt_layers1` starts empty. -/
def ContractBuilder.create (issuer : Nat) (iface : Iface) (schema : SchemaModel)
    (iimpl : IfaceImpl) (types : TypeSystemModel) (scripts : Nat) :
    ContractBuilder :=
  { builder := OperationBuilder.create iface schema iimpl types,
    testnet := true, altLayers1 := [], scripts := scripts, issuer := issuer }

/-- `ContractBuilder::set_mainnet` (src/interface/builder.rs:157-160). -/
def ContractBuilder.setMainnet (b : ContractBuilder) : ContractBuilder :=
  { b with testnet := false }

/-- `ContractBuilder::has_layer1` (src/interface/builder.rs:162-167):
Bitcoin is always supported; Liquid iff `alt_layers1` contains it. -/
def ContractBuilder.hasLayer1 (b : ContractBuilder) (l : Layer1) : Bool :=
  match l with
  | .bitcoin => true
  | .liquid => b.altLayers1.contains .liquid

/-- `ContractBuilder::check_layer1` (src/interface/builder.rs:168-173). -/
def ContractBuilder.checkLayer1 (b : ContractBuilder) (l : Layer1) :
    BResult Unit :=
  if ¬ b.hasLayer1 l then .err (.invalidLayer1 l) else .ok ()

/-- `TinyOrdSet::push` on `alt_layers1` (amplify confinement, external
crate): inserts into the ordered set; the 255-element capacity bound (error
`TooManyLayers1`) is unreachable because `AltLayer1` has a single variant,
and is not modelled. -/
def altLayerSetPush (s : List AltLayer1) (l : AltLayer1) : List AltLayer1 :=
  if l ∈ s then s else s ++ [l]

/-- `ContractBuilder::add_layer1` (src/interface/builder.rs:175-180). -/
def ContractBuilder.addLayer1 (b : ContractBuilder) (l : AltLayer1) :
    BResult ContractBuilder :=
  .ok { b with altLayers1 := altLayerSetPush b.altLayers1 l }

/-- Rebuild a `ContractBuilder` around an inner-builder outcome (the
`self.builder = self.builder.method(..)?` pattern of the wrappers). -/
def ContractBuilder.lift (b : ContractBuilder) :
    BResult (OperationBuilder Nat) → BResult ContractBuilder
  | .panicked => .panicked
  | .err e => .err e
  | .ok ob => .ok { b with builder := ob }

/-- `ContractBuilder::add_metadata` (src/interface/builder.rs:205-212). -/
def ContractBuilder.addMetadata (b : ContractBuilder) (name : String)
    (value : Nat) : BResult ContractBuilder :=
  b.lift (b.builder.addMetadata name value)

/-- `ContractBuilder::serialize_metadata` (src/interface/builder.rs:214-222). -/
def ContractBuilder.serializeMetadata (b : ContractBuilder) (name : String)
    (value : Nat) : BResult ContractBuilder :=
  b.lift (b.builder.serializeMetadata name value)

/-- `ContractBuilder::add_global_state` (src/interface/builder.rs:224-231). -/
def ContractBuilder.addGlobalState (b : ContractBuilder) (name : String)
    (value : Nat) : BResult ContractBuilder :=
  b.lift (b.builder.addGlobalState name value)

/-- `ContractBuilder::serialize_global_state`
(src/interface/builder.rs:233-241). -/
def ContractBuilder.serializeGlobalState (b : ContractBuilder) (name : String)
    (value : Nat) : BResult ContractBuilder :=
  b.lift (b.builder.serializeGlobalState name value)

/-- `ContractBuilder::add_owned_state_raw` (src/interface/builder.rs:243-253):
checks the seal's layer-1 first, then delegates. -/
def ContractBuilder.addOwnedStateRaw (b : ContractBuilder) (tyId : Nat)
    (sl : BuilderSeal Nat) (st : State) : BResult ContractBuilder :=
  match b.checkLayer1 sl.layer1 with
  | .err e => .err e
  | .panicked => .panicked
  | .ok () => b.lift (b.builder.addOwnedStateRaw tyId sl st)

/-- `ContractBuilder::add_rights` (src/interface/builder.rs:255-263):
delegates directly to the operation builder — unlike the other owned-state
insertion methods it performs no `check_layer1` call. -/
def ContractBuilder.addRights (b : ContractBuilder) (name : String)
    (sl : BuilderSeal Nat) (attach : Option Nat) : BResult ContractBuilder :=
  b.lift (b.builder.addRights name sl attach)

/-- `ContractBuilder::add_owned_state` (src/interface/builder.rs:265-276):
checks the seal's layer-1 first, then delegates. -/
def ContractBuilder.addOwnedState (b : ContractBuilder) (name : String)
    (sl : BuilderSeal Nat) (value : Nat) (attach : Option Nat) :
    BResult ContractBuilder :=
  match b.checkLayer1 sl.layer1 with
  | .err e => .err e
  | .panicked => .panicked
  | .ok () => b.lift (b.builder.addOwnedState name sl value attach)

/-- `ContractBuilder::serialize_owned_state`
(src/interface/builder.rs:278-291): checks the seal's layer-1 first, then
delegates. -/
def ContractBuilder.serializeOwnedState (b : ContractBuilder) (name : String)
    (sl : BuilderSeal Nat) (value : Nat) (attach : Option Nat) :
    BResult ContractBuilder :=
  match b.checkLayer1 sl.layer1 with
  | .err e => .err e
  | .panicked => .panicked
  | .ok () => b.lift (b.builder.serializeOwnedState name sl value attach)

/-- One public mutating call on a `ContractBuilder`, for trace-level
statements ("was `add_layer1` called before ...?"). -/
inductive CStep : Type
  | addLayer1 (l : AltLayer1)
  | setMainnet
  | addMetadata (name : String) (value : Nat)
  | serializeMetadata (name : String) (value : Nat)
  | addGlobalState (name : String) (value : Nat)
  | serializeGlobalState (name : String) (value : Nat)
  | addOwnedStateRaw (tyId : Nat) (sl : BuilderSeal Nat) (st : State)
  | addRights (name : String) (sl : BuilderSeal Nat) (attach : Option Nat)
  | addOwnedState (name : String) (sl : BuilderSeal Nat) (value : Nat) (attach : Option Nat)
  | serializeOwnedState (name : String) (sl : BuilderSeal Nat) (value : Nat) (attach : Option Nat)
deriving DecidableEq

/-- Apply one `CStep` to a `ContractBuilder`. -/
def ContractBuilder.applyStep (b : ContractBuilder) : CStep → BResult ContractBuilder
  | .addLayer1 l => b.addLayer1 l
  | .setMainnet => .ok b.setMainnet
  | .addMetadata name value => b.addMetadata name value
  | .serializeMetadata name value => b.serializeMetadata name value
  | .addGlobalState name value => b.addGlobalState name value
  | .serializeGlobalState name value => b.serializeGlobalState name value
  | .addOwnedStateRaw tyId sl st => b.addOwnedStateRaw tyId sl st
  | .addRights name sl attach => b.addRights name sl attach
  | .addOwnedState name sl value attach => b.addOwnedState name sl value attach
  | .serializeOwnedState name sl value attach => b.serializeOwnedState name sl value attach

/-- Apply a sequence of `CStep`s, propagating errors and panics. -/
def ContractBuilder.applySteps (b : ContractBuilder) :
    List CStep → BResult ContractBuilder
  | [] => .ok b
  | s :: rest =>
    match b.applyStep s with
    | .ok b₂ => b₂.applySteps rest
    | .err e => .err e
    | .panicked => .panicked

/-- Reference to a prior assignment (`Opout`: operation id, assignment
type, index).  `Input::with(opout)` wraps exactly this triple, so inputs
are keyed by it. -/
structure Opout where
  opid : Nat
  ty : Nat
  no : Nat
deriving DecidableEq

/-- Opaque handle to a `StateCalc` accumulator (the calculator itself lives
in the interface module outside src/ and is modelled through `CalcSem`). -/
abbrev StateCalc : Type := Nat

/-- The `StateCalc` collaborator.  Modelled from the spec (§4.7): `new`
loads the VM programs from the scripts and the state ABI; `regInput`
accumulates consumed state; `calcOutput` splits a requested output into
`{sufficient, insufficient}`; `calcChange` yields the residual owed back.
Failures are `StateCalcError` (opaque payload). -/
structure CalcSem where
  new : Nat → Nat → StateCalc
  regInput : StateCalc → Nat → State → Except Nat StateCalc
  calcOutput : StateCalc → Nat → State → Except Nat (State × Option State)
  calcChange : StateCalc → Nat → Except Nat (Option State)

/-- `u64::MAX`, the default nonce of a transition builder. -/
def u64Max : Nat := 18446744073709551615

/-- `TransitionType::BLANK` (rgb-core, external crate); its numeric value is
irrelevant to the claims. -/
def blankTransitionType : Nat := 65535

/-- `TransitionBuilder` (src/interface/builder.rs:351-360); the Rust field
`calc` is rendered `stateCalc` because `calc` is a reserved word in Lean. -/
structure TransitionBuilder where
  contractId : ContractId
  builder : OperationBuilder Nat
  nonce : Nat
  transitionType : Nat
  inputs : List (Opout × State)
  stateCalc : Option StateCalc

/-- `TransitionBuilder::with` (src/interface/builder.rs:407-424); renamed
`create` because `with` is a reserved word in Lean: nonce defaults to
`u64::MAX`, inputs start empty. -/
def TransitionBuilder.create (contractId : ContractId) (iface : Iface)
    (schema : SchemaModel) (iimpl : IfaceImpl) (transitionType : Nat)
    (types : TypeSystemModel) (stateCalc : Option StateCalc) :
    TransitionBuilder :=
  { contractId := contractId,
    builder := OperationBuilder.create iface schema iimpl types,
    nonce := u64Max, transitionType := transitionType, inputs := [],
    stateCalc := stateCalc }

/-- `TransitionBuilder::blank_transition` (src/interface/builder.rs:363-371):
no `StateCalc`. -/
def TransitionBuilder.blankTransition (contractId : ContractId) (iface : Iface)
    (schema : SchemaModel) (iimpl : IfaceImpl) (types : TypeSystemModel) :
    TransitionBuilder :=
  TransitionBuilder.create contractId iface schema iimpl blankTransitionType
    types none

/-- `TransitionBuilder::default_transition`
(src/interface/builder.rs:373-388): picks `iface.default_operation`,
resolves it through the interface implementation (either absence fails
`NoOperationSubtype`), and constructs the builder with a fresh
`StateCalc`. -/
def TransitionBuilder.defaultTransition (sem : CalcSem) (contractId : ContractId)
    (iface : Iface) (schema : SchemaModel) (iimpl : IfaceImpl)
    (types : TypeSystemModel) (scripts : Nat) : BResult TransitionBuilder :=
  match iface.defaultOperation with
  | none => .err .noOperationSubtype
  | some name =>
    match alLookup name iimpl.transitionTypes with
    | none => .err .noOperationSubtype
    | some ty =>
      .ok (TransitionBuilder.create contractId iface schema iimpl ty types
        (some (sem.new scripts iimpl.stateAbi)))

/-- `TransitionBuilder::named_transition` (src/interface/builder.rs:390-405):
resolves the given transition name (`TransitionNotFound` on failure) and
constructs the builder with a fresh `StateCalc`. -/
def TransitionBuilder.namedTransition (sem : CalcSem) (contractId : ContractId)
    (iface : Iface) (schema : SchemaModel) (iimpl : IfaceImpl) (name : String)
    (types : TypeSystemModel) (scripts : Nat) : BResult TransitionBuilder :=
  match alLookup name iimpl.transitionTypes with
  | none => .err (.transitionNotFound name)
  | some ty =>
    .ok (TransitionBuilder.create contractId iface schema iimpl ty types
      (some (sem.new scripts iimpl.stateAbi)))

/-- `TransitionBuilder::set_nonce` (src/interface/builder.rs:463-466). -/
def TransitionBuilder.setNonce (b : TransitionBuilder) (n : Nat) :
    TransitionBuilder :=
  { b with nonce := n }

/-- `TransitionBuilder::add_input` (src/interface/builder.rs:468-474): when
a calculator is present, registers the consumed state (`StateCalcError`
surfaces as `BuilderError::Calc`); then inserts `Input::with(opout) ↦ state`
into the inputs map. -/
def TransitionBuilder.addInput (sem : CalcSem) (b : TransitionBuilder)
    (opout : Opout) (st : State) : BResult TransitionBuilder :=
  match b.stateCalc with
  | some c =>
    match sem.regInput c opout.ty st with
    | .error e => .err (.calcErr e)
    | .ok c₂ => .ok { b with stateCalc := some c₂, inputs := alInsert opout st b.inputs }
  | none => .ok { b with inputs := alInsert opout st b.inputs }

/-- Rebuild a `TransitionBuilder` around an inner-builder outcome. -/
def TransitionBuilder.lift (b : TransitionBuilder) :
    BResult (OperationBuilder Nat) → BResult TransitionBuilder
  | .panicked => .panicked
  | .err e => .err e
  | .ok ob => .ok { b with builder := ob }

/-- `TransitionBuilder::add_metadata` (src/interface/builder.rs:476-483). -/
def TransitionBuilder.addMetadata (b : TransitionBuilder) (name : String)
    (value : Nat) : BResult TransitionBuilder :=
  b.lift (b.builder.addMetadata name value)

/-- `TransitionBuilder::serialize_metadata`
(src/interface/builder.rs:485-493). -/
def TransitionBuilder.serializeMetadata (b : TransitionBuilder) (name : String)
    (value : Nat) : BResult TransitionBuilder :=
  b.lift (b.builder.serializeMetadata name value)

/-- `TransitionBuilder::add_global_state`
(src/interface/builder.rs:495-502). -/
def TransitionBuilder.addGlobalState (b : TransitionBuilder) (name : String)
    (value : Nat) : BResult TransitionBuilder :=
  b.lift (b.builder.addGlobalState name value)

/-- `TransitionBuilder::serialize_global_state`
(src/interface/builder.rs:504-512). -/
def TransitionBuilder.serializeGlobalState (b : TransitionBuilder)
    (name : String) (value : Nat) : BResult TransitionBuilder :=
  b.lift (b.builder.serializeGlobalState name value)

/-- `TransitionBuilder::add_owned_state_blank`
(src/interface/builder.rs:516-524): bypasses the layer check and the VM,
delegating straight to `add_owned_state_raw`. -/
def TransitionBuilder.addOwnedStateBlank (b : TransitionBuilder) (tyId : Nat)
    (sl : BuilderSeal Nat) (st : State) : BResult TransitionBuilder :=
  b.lift (b.builder.addOwnedStateRaw tyId sl st)

/-- `TransitionBuilder::add_rights` (src/interface/builder.rs:526-534). -/
def TransitionBuilder.addRights (b : TransitionBuilder) (name : String)
    (sl : BuilderSeal Nat) (attach : Option Nat) : BResult TransitionBuilder :=
  b.lift (b.builder.addRights name sl attach)

/-- `TransitionBuilder::fulfill_owned_state`
(src/interface/builder.rs:536-551): panics
(`.expect("you must not call fulfill_owned_state for the blank transition
builder")`) when no calculator is present; otherwise splits the requested
state via `calc_output` (`StateCalcError` → `Calc`), writes the sufficient
portion, and returns the insufficient residue. -/
def TransitionBuilder.fulfillOwnedState (sem : CalcSem) (b : TransitionBuilder)
    (tyId : Nat) (sl : BuilderSeal Nat) (st : State) :
    BResult (TransitionBuilder × Option State) :=
  match b.stateCalc with
  | none => .panicked
  | some c =>
    match sem.calcOutput c tyId st with
    | .error e => .err (.calcErr e)
    | .ok (sufficient, insufficient) =>
      match b.builder.addOwnedStateRaw tyId sl sufficient with
      | .panicked => .panicked
      | .err e => .err e
      | .ok ob => .ok ({ b with builder := ob }, insufficient)

/-- `TransitionBuilder::add_owned_state_change`
(src/interface/builder.rs:553-566): panics when no calculator is present;
otherwise asks `calc_change` for the residue and writes it back when it is
non-empty. -/
def TransitionBuilder.addOwnedStateChange (sem : CalcSem)
    (b : TransitionBuilder) (tyId : Nat) (sl : BuilderSeal Nat) :
    BResult TransitionBuilder :=
  match b.stateCalc with
  | none => .panicked
  | some c =>
    match sem.calcChange c tyId with
    | .error e => .err (.calcErr e)
    | .ok none => .ok b
    | .ok (some st) => b.lift (b.builder.addOwnedStateRaw tyId sl st)

/-- `TransitionBuilder::has_inputs` (src/interface/builder.rs:568). -/
def TransitionBuilder.hasInputs (b : TransitionBuilder) : Bool :=
  ¬ b.inputs.isEmpty

/-- A state transition (`rgb::Transition`, external crate), with the fields
`complete_transition` fills; `ffv` (a reserved version byte set to
`none!()`) is omitted. -/
structure Transition where
  contractId : ContractId
  nonce : Nat
  transitionType : Nat
  metadata : List (Nat × List Nat)
  globals : List (Nat × List (List Nat))
  inputs : List Opout
  assignments : List (Nat × List (BuilderSeal Nat × State))
  valencies : List Nat
  witness : Option Nat
  validator : Option Nat

/-- `TransitionBuilder::complete_transition`
(src/interface/builder.rs:570-590): takes the globals and assignments from
the operation builder, the inputs' keys, and fills `metadata` with
`empty!()` (the builder-side metadata is dropped), `valencies`, `witness`
and `validator` with `none!()`; it always returns `Ok`. -/
def TransitionBuilder.completeTransition (b : TransitionBuilder) :
    Except BuilderError Transition :=
  .ok { contractId := b.contractId, nonce := b.nonce,
        transitionType := b.transitionType, metadata := [],
        globals := b.builder.global, inputs := b.inputs.map Prod.fst,
        assignments := b.builder.assignments, valencies := [],
        witness := none, validator := none }

/-- One public mutating call on a `TransitionBuilder`, for trace-level
statements (`fulfill_owned_state` keeps the builder and drops the
residue). -/
inductive TStep : Type
  | setNonce (n : Nat)
  | addInput (opout : Opout) (st : State)
  | addMetadata (name : String) (value : Nat)
  | serializeMetadata (name : String) (value : Nat)
  | addGlobalState (name : String) (value : Nat)
  | serializeGlobalState (name : String) (value : Nat)
  | addOwnedStateBlank (tyId : Nat) (sl : BuilderSeal Nat) (st : State)
  | addRights (name : String) (sl : BuilderSeal Nat) (attach : Option Nat)
  | fulfillOwnedState (tyId : Nat) (sl : BuilderSeal Nat) (st : State)
  | addOwnedStateChange (tyId : Nat) (sl : BuilderSeal Nat)
deriving DecidableEq

/-- Apply one `TStep` to a `TransitionBuilder`. -/
def TransitionBuilder.applyStep (sem : CalcSem) (b : TransitionBuilder) :
    TStep → BResult TransitionBuilder
  | .setNonce n => .ok (b.setNonce n)
  | .addInput opout st => TransitionBuilder.addInput sem b opout st
  | .addMetadata name value => b.addMetadata name value
  | .serializeMetadata name value => b.serializeMetadata name value
  | .addGlobalState name value => b.addGlobalState name value
  | .serializeGlobalState name value => b.serializeGlobalState name value
  | .addOwnedStateBlank tyId sl st => b.addOwnedStateBlank tyId sl st
  | .addRights name sl attach => b.addRights name sl attach
  | .fulfillOwnedState tyId sl st =>
    (match TransitionBuilder.fulfillOwnedState sem b tyId sl st with
     | .ok (b₂, _) => .ok b₂
     | .err e => .err e
     | .panicked => .panicked)
  | .addOwnedStateChange tyId sl => TransitionBuilder.addOwnedStateChange sem b tyId sl

/-- Apply a sequence of `TStep`s, propagating errors and panics. -/
def TransitionBuilder.applySteps (sem : CalcSem) (b : TransitionBuilder) :
    List TStep → BResult TransitionBuilder
  | [] => .ok b
  | s :: rest =>
    match TransitionBuilder.applyStep sem b s with
    | .ok b₂ => TransitionBuilder.applySteps sem b₂ rest
    | .err e => .err e
    | .panicked => .panicked

/-- The nonce after a step sequence, starting from `n`: the argument of the
last `set_nonce`, else `n`. -/
def nonceAfter : List TStep → Nat → Nat
  | [], n => n
  | .setNonce m :: rest, _ => nonceAfter rest m
  | _ :: rest, n => nonceAfter rest n

/-- The inputs map after a step sequence: each `add_input` inserts its
opout ↦ state pair. -/
def inputsAfter : List TStep → List (Opout × State) → List (Opout × State)
  | [], ins => ins
  | .addInput opout st :: rest, ins => inputsAfter rest (alInsert opout st ins)
  | _ :: rest, ins => inputsAfter rest ins

/-- A concrete type system for witness instances: typification is the
identity and serialization wraps the value in a singleton byte list. -/
def typesW : TypeSystemModel :=
  { typify := fun v _ => .ok v,
    serializeState := fun v => .ok [v],
    serializeRaw := fun v => .ok [v] }

/-- A concrete schema for witness instances. -/
def schemaW : SchemaModel :=
  { metaTypes := [(1, 10)], globalTypes := [(2, 11)], ownedTypes := [(2, 12)] }

/-- A concrete interface for witness instances. -/
def ifaceW : Iface :=
  { defaultOperation := some "tr",
    transitions := [("tr", { defaultAssignment := some "right" })] }

/-- A concrete interface implementation for witness instances. -/
def iimplW : IfaceImpl :=
  { metaTypes := [("m", 1)], globalTypes := [("g", 2)],
    assignmentTypes := [("right", 2)], valencyTypes := [],
    transitionTypes := [("tr", 4)], stateAbi := 0 }

/-- A concrete contract builder (no `add_layer1` call) for witness and
counterexample instances. -/
def cbW : ContractBuilder :=
  ContractBuilder.create 0 ifaceW schemaW iimplW typesW 0

/-- A concrete `StateCalc` semantics for witness instances: registration
keeps the accumulator, outputs are always sufficient, change is empty. -/
def semW : CalcSem :=
  { new := fun _ _ => 0,
    regInput := fun c _ _ => .ok c,
    calcOutput := fun _ _ st => .ok (st, none),
    calcChange := fun _ _ => .ok none }

/-- A concrete 32-byte contract id for witness instances. -/
def cidW : ContractId := List.replicate 32 2

/-- The builder produced by `default_transition` on the concrete witness
interface (transition type 4, fresh calculator). -/
def tbW : TransitionBuilder :=
  TransitionBuilder.create cidW ifaceW schemaW iimplW 4 typesW (some 0)

/-- The concrete step trace used by the `complete_transition` witness. -/
def stepsW : List TStep :=
  [.addMetadata "m" 5, .setNonce 3, .addInput ⟨1, 2, 0⟩ { data := [7], attach := none }]

/-- The builder reached from a fresh blank-calculator builder by `stepsW`. -/
def tbW2 : TransitionBuilder :=
  { contractId := cidW,
    builder := { schema := schemaW, iface := ifaceW, iimpl := iimplW,
                 global := [], meta := [(1, [5])], assignments := [],
                 types := typesW },
    nonce := 3, transitionType := 4,
    inputs := [(⟨1, 2, 0⟩, { data := [7], attach := none })],
    stateCalc := none }

/-- The concrete contract builder after `add_layer1(Liquid)`. -/
def cbL : ContractBuilder :=
  { cbW with altLayers1 := [.liquid] }

/-- The effect of one step on the nonce: `set_nonce` overwrites it. -/
def TStep.nonceEffect : TStep → Nat → Nat
  | .setNonce m, _ => m
  | _, n => n

/-- The effect of one step on the inputs map: `add_input` inserts its
opout ↦ state pair. -/
def TStep.inputsEffect : TStep → List (Opout × State) → List (Opout × State)
  | .addInput opout st, ins => alInsert opout st ins
  | _, ins => ins

-- ===== Theorems =====

/-- **C1.** `Mound::consume` rejects with `UnrecognizedMagic` (carrying the
hex of the 16 bytes read) every stream whose first 16 bytes differ from
`"RGB CONSIGNMENT\0"`, and, when the magic matches, rejects with
`UnknownContract` every stream whose decoded 32-byte contract id is not
registered in the mound; in both cases the result does not depend on the
stockpile-consume delegate (no payload is decoded) and the mound — hence
every stockpile in it — is returned unchanged. -/
theorem mound_consume_envelope_gating {Sch Stk : Type}
    (m : Mound Sch Stk) :
    (∀ s : ByteStream, 16 ≤ s.length → s.take 16 ≠ MAGIC_BYTES_CONSIGNMENT →
      ∀ d, Mound.consume d m s =
        (.error (.unrecognizedMagic (toHex (s.take 16))), m))
    ∧
    (∀ (cid : ContractId) (rest : ByteStream), cid.length = 32 →
      alLookup cid m.contracts = none →
      ∀ d, Mound.consume d m (MAGIC_BYTES_CONSIGNMENT ++ [0, 0] ++ cid ++ rest) =
        (.error (.unknownContract cid), m)) := by
  constructor
  · intro s hlen hmagic d
    simp only [Mound.consume, readBytes, hlen, if_pos, hmagic, ite_true]
    rw [if_pos hmagic]
  · intro cid rest hcid hlook d
    have hs : MAGIC_BYTES_CONSIGNMENT ++ [0, 0] ++ cid ++ rest =
        MAGIC_BYTES_CONSIGNMENT ++ ([0, 0] ++ (cid ++ rest)) := by
      simp [List.append_assoc]
    rw [hs]
    have h16 : (MAGIC_BYTES_CONSIGNMENT ++ ([0, 0] ++ (cid ++ rest))).take 16 =
        MAGIC_BYTES_CONSIGNMENT := List.take_left' rfl
    have h16d : (MAGIC_BYTES_CONSIGNMENT ++ ([0, 0] ++ (cid ++ rest))).drop 16 =
        [0, 0] ++ (cid ++ rest) := List.drop_left' rfl
    have h2 : (([0, 0] : List Nat) ++ (cid ++ rest)).take 2 = [0, 0] :=
      List.take_left' rfl
    have h2d : (([0, 0] : List Nat) ++ (cid ++ rest)).drop 2 = cid ++ rest :=
      List.drop_left' rfl
    have h32 : (cid ++ rest).take 32 = cid := List.take_left' hcid
    have hlen16 : 16 ≤ (MAGIC_BYTES_CONSIGNMENT ++ ([0, 0] ++ (cid ++ rest))).length := by
      simp [MAGIC_BYTES_CONSIGNMENT]
    have hlen2 : 2 ≤ (([0, 0] : List Nat) ++ (cid ++ rest)).length := by
      simp
    have hlen32 : 32 ≤ (cid ++ rest).length := by
      simp [hcid]
    simp only [Mound.consume, readBytes, hlen16, if_pos, hlen2, hlen32, h16, h16d, h2,
      h2d, h32, hlook, ne_eq, not_true_eq_false, if_false, ite_false, ite_true,
      not_false_eq_true]

/-- **C1 witness**: concrete evaluations — a 16-zero-byte stream is rejected
with `UnrecognizedMagic`, and a well-formed envelope with an unregistered
contract id is rejected with `UnknownContract`, the mound unchanged. -/
theorem mound_consume_envelope_gating_witness :
    Mound.consume trivialConsume emptyMound (List.replicate 16 0) =
      (.error (.unrecognizedMagic (toHex ((List.replicate 16 0).take 16))), emptyMound)
    ∧
    Mound.consume trivialConsume emptyMound
        (MAGIC_BYTES_CONSIGNMENT ++ [0, 0] ++ List.replicate 32 1 ++ []) =
      (.error (.unknownContract (List.replicate 32 1)), emptyMound) :=
  ⟨(mound_consume_envelope_gating emptyMound).1 (List.replicate 16 0) (by decide)
      (by decide) trivialConsume,
   (mound_consume_envelope_gating emptyMound).2 (List.replicate 32 1) [] (by decide)
      (by decide) trivialConsume⟩

/-- **C2.** For a registered contract id, `Mound::consign` writes exactly the
16 magic bytes, the version `u16 = 0` (two zero bytes), and the 32-byte
contract id, followed by the stockpile-consign payload; and `Mound::consume`
applied to that stream, on any mound holding the same contract id, passes the
magic and contract-id checks and reduces to the delegated stockpile-consume
on the payload. -/
theorem mound_consign_envelope_roundtrip {Sch Stk : Type}
    (stockConsign : Stk → List Nat)
    (stockConsume : Stk → ByteStream → Except ConsumeErr Unit × Stk)
    (m m₂ : Mound Sch Stk) (cid : ContractId) (st st₂ : Stk)
    (h : alLookup cid m.contracts = some st)
    (h₂ : alLookup cid m₂.contracts = some st₂)
    (hlen : cid.length = 32) :
    Mound.consign stockConsign m cid =
      some (MAGIC_BYTES_CONSIGNMENT ++ [0, 0] ++ cid ++ stockConsign st)
    ∧
    Mound.consume stockConsume m₂
        (MAGIC_BYTES_CONSIGNMENT ++ [0, 0] ++ cid ++ stockConsign st) =
      (match stockConsume st₂ (stockConsign st) with
       | (.ok (), stk) =>
         ((.ok () : Except MoundConsumeError Unit),
          { m₂ with contracts := alInsert cid stk m₂.contracts })
       | (.error e, stk) =>
         (.error (.inner e),
          { m₂ with contracts := alInsert cid stk m₂.contracts })) := by
  constructor
  · simp only [Mound.consign, h]
  · have hs : MAGIC_BYTES_CONSIGNMENT ++ [0, 0] ++ cid ++ stockConsign st =
        MAGIC_BYTES_CONSIGNMENT ++ ([0, 0] ++ (cid ++ stockConsign st)) := by
      simp [List.append_assoc]
    rw [hs]
    have h16 : (MAGIC_BYTES_CONSIGNMENT ++ ([0, 0] ++ (cid ++ stockConsign st))).take 16 =
        MAGIC_BYTES_CONSIGNMENT := List.take_left' rfl
    have h16d : (MAGIC_BYTES_CONSIGNMENT ++ ([0, 0] ++ (cid ++ stockConsign st))).drop 16 =
        [0, 0] ++ (cid ++ stockConsign st) := List.drop_left' rfl
    have h2 : (([0, 0] : List Nat) ++ (cid ++ stockConsign st)).take 2 = [0, 0] :=
      List.take_left' rfl
    have h2d : (([0, 0] : List Nat) ++ (cid ++ stockConsign st)).drop 2 =
        cid ++ stockConsign st := List.drop_left' rfl
    have h32 : (cid ++ stockConsign st).take 32 = cid := List.take_left' hlen
    have h32d : (cid ++ stockConsign st).drop 32 = stockConsign st :=
      List.drop_left' hlen
    have hlen16 : 16 ≤ (MAGIC_BYTES_CONSIGNMENT ++ ([0, 0] ++ (cid ++ stockConsign st))).length := by
      simp [MAGIC_BYTES_CONSIGNMENT]
    have hlen2 : 2 ≤ (([0, 0] : List Nat) ++ (cid ++ stockConsign st)).length := by
      simp
    have hlen32 : 32 ≤ (cid ++ stockConsign st).length := by
      simp [hlen]
    simp only [Mound.consume, readBytes, hlen16, if_pos, hlen2, hlen32, h16, h16d, h2,
      h2d, h32, h32d, h₂, ne_eq, not_true_eq_false, if_false, ite_false, ite_true,
      not_false_eq_true]

/-- **C2 witness**: concrete evaluation on a one-contract mound with a
trivial stockpile-consign payload. -/
theorem mound_consign_envelope_roundtrip_witness :
    Mound.consign (fun _ => [9, 9]) oneContractMound (List.replicate 32 1) =
      some (MAGIC_BYTES_CONSIGNMENT ++ [0, 0] ++ List.replicate 32 1 ++ [9, 9])
    ∧
    Mound.consume trivialConsume oneContractMound
        (MAGIC_BYTES_CONSIGNMENT ++ [0, 0] ++ List.replicate 32 1 ++ [9, 9]) =
      (match trivialConsume 7 [9, 9] with
       | (.ok (), stk) =>
         ((.ok () : Except MoundConsumeError Unit),
          { oneContractMound with
            contracts := alInsert (List.replicate 32 1) stk oneContractMound.contracts })
       | (.error e, stk) =>
         (.error (.inner e),
          { oneContractMound with
            contracts := alInsert (List.replicate 32 1) stk oneContractMound.contracts })) :=
  mound_consign_envelope_roundtrip (fun _ => [9, 9]) trivialConsume
    oneContractMound oneContractMound (List.replicate 32 1) 7 7
    (by decide) (by decide) (by decide)

/-- **C4.** `Mound::issue` accepts — creates and registers the contract —
exactly when the parameters' consensus and testnet flag match the mound's
and the codex id is known; a consensus mismatch yields `ConsensusMismatch`
regardless of the other checks, a network mismatch (with matching consensus)
yields `TestnetMismatch` or `MainnetMismatch` according to `params.testnet`
regardless of the codex lookup, and an unknown codex (with both environment
checks passing) yields `UnknownCodex`. -/
theorem mound_issue_gating {Sch Stk : Type}
    (mk : Sch → CreateParams → ContractId × Stk)
    (m : Mound Sch Stk) (p : CreateParams) :
    ((∃ id stk, Mound.issue mk m p =
        (.ok id, { m with contracts := alInsert id stk m.contracts })) ↔
      (p.consensus = m.consensus ∧ p.testnet = m.testnet ∧
        (alLookup p.codexId m.schemata).isSome))
    ∧ (p.consensus ≠ m.consensus →
        (Mound.issue mk m p).1 = .error .consensusMismatch)
    ∧ (p.consensus = m.consensus → p.testnet ≠ m.testnet → p.testnet = true →
        (Mound.issue mk m p).1 = .error .testnetMismatch)
    ∧ (p.consensus = m.consensus → p.testnet ≠ m.testnet → p.testnet = false →
        (Mound.issue mk m p).1 = .error .mainnetMismatch)
    ∧ (p.consensus = m.consensus → p.testnet = m.testnet →
        alLookup p.codexId m.schemata = none →
        (Mound.issue mk m p).1 = .error (.unknownCodex p.codexId)) := by
  refine ⟨?_, ?_, ?_, ?_, ?_⟩
  · constructor
    · rintro ⟨id, stk, hok⟩
      by_cases hc : p.consensus = m.consensus
      · by_cases ht : p.testnet = m.testnet
        · refine ⟨hc, ht, ?_⟩
          rcases hsch : alLookup p.codexId m.schemata with _ | sch
          · simp [Mound.issue, Mound.schema, hc, ht, hsch] at hok
          · simp
        · simp only [Mound.issue] at hok
          rw [if_neg (by simp [hc]), if_pos ht] at hok
          simp at hok
      · simp [Mound.issue, hc] at hok
    · rintro ⟨hc, ht, hsch⟩
      rcases hs : alLookup p.codexId m.schemata with _ | sch
      · rw [hs] at hsch; simp at hsch
      · refine ⟨(mk sch p).1, (mk sch p).2, ?_⟩
        simp [Mound.issue, Mound.schema, hc, ht, hs]
  · intro hc
    simp [Mound.issue, hc]
  · intro hc ht hb
    have hm : m.testnet = false := by
      cases hmb : m.testnet
      · rfl
      · exact absurd (hb.trans hmb.symm) ht
    simp [Mound.issue, hc, hb, hm]
  · intro hc ht hb
    have hm : m.testnet = true := by
      cases hmb : m.testnet
      · exact absurd (hb.trans hmb.symm) ht
      · rfl
    simp [Mound.issue, hc, hb, hm]
  · intro hc ht hs
    simp [Mound.issue, Mound.schema, hc, ht, hs]

/-- **C4 witness**: concrete evaluations of the acceptance case and each
rejection case. -/
theorem mound_issue_gating_witness :
    (∃ id stk, Mound.issue (fun sch p => (List.replicate 32 sch, p.payload))
        oneContractMound ⟨5, .bitcoin, true, 3⟩ =
      (.ok id, { oneContractMound with
        contracts := alInsert id stk oneContractMound.contracts }))
    ∧ (Mound.issue (fun sch p => (List.replicate 32 sch, p.payload))
        oneContractMound ⟨5, .liquid, true, 3⟩).1 = .error .consensusMismatch
    ∧ (Mound.issue (fun sch p => (List.replicate 32 sch, p.payload))
        { oneContractMound with testnet := false }
        ⟨5, .bitcoin, true, 3⟩).1 = .error .testnetMismatch
    ∧ (Mound.issue (fun sch p => (List.replicate 32 sch, p.payload))
        oneContractMound ⟨5, .bitcoin, false, 3⟩).1 = .error .mainnetMismatch
    ∧ (Mound.issue (fun sch p => (List.replicate 32 sch, p.payload))
        oneContractMound ⟨6, .bitcoin, true, 3⟩).1 = .error (.unknownCodex 6) :=
  ⟨(mound_issue_gating _ oneContractMound _).1.2 ⟨rfl, rfl, by decide⟩,
   (mound_issue_gating _ oneContractMound _).2.1 (by decide),
   (mound_issue_gating _ _ _).2.2.1 rfl (by decide) rfl,
   (mound_issue_gating _ oneContractMound _).2.2.2.1 rfl (by decide) rfl,
   (mound_issue_gating _ oneContractMound _).2.2.2.2 rfl rfl (by decide)⟩

/-- **C9.** Whenever `Mound::issue` returns an error, the mound is returned
unchanged: its contracts map, schemata map, consensus and testnet flag are
exactly those of the input mound. -/
theorem mound_issue_error_frame {Sch Stk : Type}
    (mk : Sch → CreateParams → ContractId × Stk)
    (m : Mound Sch Stk) (p : CreateParams) (e : IssueError)
    (h : (Mound.issue mk m p).1 = .error e) :
    (Mound.issue mk m p).2 = m := by
  by_cases hc : p.consensus = m.consensus
  · by_cases ht : p.testnet = m.testnet
    · rcases hs : alLookup p.codexId m.schemata with _ | sch
      · simp [Mound.issue, Mound.schema, hc, ht, hs]
      · simp [Mound.issue, Mound.schema, hc, ht, hs] at h
    · simp [Mound.issue, hc, ht]
  · simp [Mound.issue, hc]

/-- **C9 witness**: concrete evaluation — a consensus-mismatching issue
leaves the mound untouched. -/
theorem mound_issue_error_frame_witness :
    (Mound.issue (fun sch p => (List.replicate 32 sch, p.payload))
        oneContractMound ⟨5, .liquid, true, 3⟩).2 = oneContractMound :=
  mound_issue_error_frame (fun sch p => (List.replicate 32 sch, p.payload))
    oneContractMound ⟨5, .liquid, true, 3⟩ .consensusMismatch rfl

/-- **C3 (refuted — the claim states the intended behaviour, the code
panics).**  Evaluating `OpReader::read_operation` and
`WitnessReader::read_witness` on failing strict decoders shows the actual
behaviour of the operation section: a malformed (non-end-of-file) operation
decode panics instead of returning `ConsumeError::Decode`; a seal-list,
witness-count or witness decode failure panics even on end-of-file; and an
`UnexpectedEof` at the start of an operation — even one caused by
truncation inside the operation — is swallowed as a clean end of stream. -/
theorem opReader_panics_on_malformed_stream :
    OpReader.readOperation failOpCodec (fun _ => []) [0] = .panicked
    ∧ WitnessReader.readWitness failOpCodec 1 [0] = .panicked
    ∧ WitnessReader.readWitness eofOpCodec 1 [0] = .panicked
    ∧ OpReader.readOperation eofOpCodec (fun _ => []) [0] = .stop :=
  ⟨rfl, rfl, rfl, rfl⟩

/-- **C10.** `ContractState::map` and `ContractState::filter_map` both leave
the `immutable` and `computed` fields untouched; `map` preserves every owned
state name, cell address and data, replacing each seal `sl` by `f sl`; and
`filter_map` keeps, per state name, exactly the entries whose seal `f` maps
to `some`, likewise preserving address and data. -/
theorem contractState_map_filterMap_frame {Seal To : Type}
    (s : ContractState Seal) (f : Seal → To) (g : Seal → Option To) :
    ((s.map f).immutable = s.immutable
      ∧ (s.map f).computed = s.computed
      ∧ List.Forall₂ (fun (a : Nat × List ((Nat × Nat) × Assignment Seal))
            (b : Nat × List ((Nat × Nat) × Assignment To)) =>
          a.1 = b.1 ∧ List.Forall₂ (fun c d =>
            c.1 = d.1 ∧ d.2.seal' = f c.2.seal' ∧ d.2.data = c.2.data) a.2 b.2)
          s.owned (s.map f).owned)
    ∧ ((s.filterMap g).immutable = s.immutable
      ∧ (s.filterMap g).computed = s.computed
      ∧ (s.filterMap g).owned = s.owned.map (fun nm =>
          (nm.1, nm.2.filterMap (fun ad =>
            (g ad.2.seal').map (fun t => (ad.1, { seal' := t, data := ad.2.data })))))) := by
  refine ⟨⟨rfl, rfl, ?_⟩, rfl, rfl, rfl⟩
  show List.Forall₂ _ s.owned (s.owned.map _)
  rw [List.forall₂_map_right_iff, List.forall₂_same]
  intro nm _
  refine ⟨rfl, ?_⟩
  show List.Forall₂ _ nm.2 (nm.2.map _)
  rw [List.forall₂_map_right_iff, List.forall₂_same]
  intro ad _
  exact ⟨rfl, rfl, rfl⟩

/-- Helper: lifting an inner-builder outcome into a `ContractBuilder` maps
errors one-to-one. -/
theorem ContractBuilder.lift_err_iff (b : ContractBuilder)
    (r : BResult (OperationBuilder Nat)) (e : BuilderError) :
    b.lift r = .err e ↔ r = .err e := by
  cases r <;> simp [ContractBuilder.lift]

/-- Helper: a successful lift comes from a successful inner outcome. -/
theorem contractBuilder_lift_ok (b : ContractBuilder)
    (r : BResult (OperationBuilder Nat)) (b₂ : ContractBuilder)
    (h : b.lift r = .ok b₂) :
    ∃ ob, r = .ok ob ∧ b₂ = { b with builder := ob } := by
  cases r with
  | panicked => simp [ContractBuilder.lift] at h
  | err e => simp [ContractBuilder.lift] at h
  | ok ob =>
    refine ⟨ob, rfl, ?_⟩
    simp only [ContractBuilder.lift, BResult.ok.injEq] at h
    exact h.symm

/-- Helper: `OperationBuilder::add_owned_state_raw` never reports
`InvalidLayer1`. -/
theorem OperationBuilder.addOwnedStateRaw_no_layer_err {Seal : Type}
    (b : OperationBuilder Seal) (tyId : Nat) (sl : BuilderSeal Seal)
    (st : State) (l : Layer1) :
    b.addOwnedStateRaw tyId sl st ≠ .err (.invalidLayer1 l) := by
  simp [OperationBuilder.addOwnedStateRaw]

/-- Helper: `OperationBuilder::add_owned_state` never reports
`InvalidLayer1`. -/
theorem OperationBuilder.addOwnedState_no_layer_err {Seal : Type}
    (b : OperationBuilder Seal) (name : String) (sl : BuilderSeal Seal)
    (value : Nat) (attach : Option Nat) (l : Layer1) :
    b.addOwnedState name sl value attach ≠ .err (.invalidLayer1 l) := by
  intro h
  simp only [OperationBuilder.addOwnedState, OperationBuilder.addOwnedStateRaw] at h
  repeat' split at h
  all_goals simp_all

/-- Helper: `OperationBuilder::serialize_owned_state` never reports
`InvalidLayer1`. -/
theorem OperationBuilder.serializeOwnedState_no_layer_err {Seal : Type}
    (b : OperationBuilder Seal) (name : String) (sl : BuilderSeal Seal)
    (value : Nat) (attach : Option Nat) (l : Layer1) :
    b.serializeOwnedState name sl value attach ≠ .err (.invalidLayer1 l) := by
  intro h
  simp only [OperationBuilder.serializeOwnedState, OperationBuilder.addOwnedStateRaw] at h
  repeat' split at h
  all_goals simp_all

/-- Helper: `OperationBuilder::add_rights` never reports `InvalidLayer1`. -/
theorem OperationBuilder.addRights_no_layer_err {Seal : Type}
    (b : OperationBuilder Seal) (name : String) (sl : BuilderSeal Seal)
    (attach : Option Nat) (l : Layer1) :
    b.addRights name sl attach ≠ .err (.invalidLayer1 l) := by
  intro h
  simp only [OperationBuilder.addRights, OperationBuilder.addOwnedStateRaw] at h
  repeat' split at h
  all_goals simp_all

/-- Helper: a single successful `CStep` changes `alt_layers1` only when it
is an `add_layer1` call (which pushes its layer). -/
theorem applyCStep_altLayers (b : ContractBuilder) (s : CStep)
    (b₂ : ContractBuilder) (h : b.applyStep s = .ok b₂) :
    b₂.altLayers1 = (match s with
      | .addLayer1 l => altLayerSetPush b.altLayers1 l
      | _ => b.altLayers1) := by
  cases s with
  | addLayer1 l =>
    simp only [ContractBuilder.applyStep, ContractBuilder.addLayer1,
      BResult.ok.injEq] at h
    subst h; rfl
  | setMainnet =>
    simp only [ContractBuilder.applyStep, ContractBuilder.setMainnet,
      BResult.ok.injEq] at h
    subst h; rfl
  | addMetadata name value =>
    simp only [ContractBuilder.applyStep, ContractBuilder.addMetadata] at h
    obtain ⟨ob, _, hb⟩ := contractBuilder_lift_ok _ _ _ h
    subst hb; rfl
  | serializeMetadata name value =>
    simp only [ContractBuilder.applyStep, ContractBuilder.serializeMetadata] at h
    obtain ⟨ob, _, hb⟩ := contractBuilder_lift_ok _ _ _ h
    subst hb; rfl
  | addGlobalState name value =>
    simp only [ContractBuilder.applyStep, ContractBuilder.addGlobalState] at h
    obtain ⟨ob, _, hb⟩ := contractBuilder_lift_ok _ _ _ h
    subst hb; rfl
  | serializeGlobalState name value =>
    simp only [ContractBuilder.applyStep, ContractBuilder.serializeGlobalState] at h
    obtain ⟨ob, _, hb⟩ := contractBuilder_lift_ok _ _ _ h
    subst hb; rfl
  | addOwnedStateRaw tyId sl st =>
    simp only [ContractBuilder.applyStep, ContractBuilder.addOwnedStateRaw] at h
    split at h
    · simp at h
    · simp at h
    · obtain ⟨ob, _, hb⟩ := contractBuilder_lift_ok _ _ _ h
      subst hb; rfl
  | addRights name sl attach =>
    simp only [ContractBuilder.applyStep, ContractBuilder.addRights] at h
    obtain ⟨ob, _, hb⟩ := contractBuilder_lift_ok _ _ _ h
    subst hb; rfl
  | addOwnedState name sl value attach =>
    simp only [ContractBuilder.applyStep, ContractBuilder.addOwnedState] at h
    split at h
    · simp at h
    · simp at h
    · obtain ⟨ob, _, hb⟩ := contractBuilder_lift_ok _ _ _ h
      subst hb; rfl
  | serializeOwnedState name sl value attach =>
    simp only [ContractBuilder.applyStep, ContractBuilder.serializeOwnedState] at h
    split at h
    · simp at h
    · simp at h
    · obtain ⟨ob, _, hb⟩ := contractBuilder_lift_ok _ _ _ h
      subst hb; rfl

/-- Helper: across a successful `CStep` trace, Liquid is in `alt_layers1`
iff it was there initially or some `add_layer1(Liquid)` call is in the
trace. -/
theorem applyCSteps_altLayers (steps : List CStep) :
    ∀ b b₂ : ContractBuilder, ContractBuilder.applySteps b steps = .ok b₂ →
    (AltLayer1.liquid ∈ b₂.altLayers1 ↔
      CStep.addLayer1 .liquid ∈ steps ∨ AltLayer1.liquid ∈ b.altLayers1) := by
  induction steps with
  | nil =>
    intro b b₂ h
    simp only [ContractBuilder.applySteps, BResult.ok.injEq] at h
    subst h
    simp
  | cons s rest ih =>
    intro b b₂ h
    simp only [ContractBuilder.applySteps] at h
    split at h
    case h_2 e heq => simp at h
    case h_3 heq => simp at h
    case h_1 b₁ heq =>
      have halt := applyCStep_altLayers b s b₁ heq
      have hmem := ih b₁ b₂ h
      cases s with
      | addLayer1 l =>
        cases l
        simp only [altLayerSetPush] at halt
        have : AltLayer1.liquid ∈ b₁.altLayers1 := by
          rw [halt]
          split
          · assumption
          · simp
        simp [hmem, this]
      | setMainnet => simp only at halt; rw [hmem, halt]; simp
      | addMetadata name value => simp only at halt; rw [hmem, halt]; simp
      | serializeMetadata name value => simp only at halt; rw [hmem, halt]; simp
      | addGlobalState name value => simp only at halt; rw [hmem, halt]; simp
      | serializeGlobalState name value => simp only at halt; rw [hmem, halt]; simp
      | addOwnedStateRaw tyId sl st => simp only at halt; rw [hmem, halt]; simp
      | addRights name sl attach => simp only at halt; rw [hmem, halt]; simp
      | addOwnedState name sl value attach => simp only at halt; rw [hmem, halt]; simp
      | serializeOwnedState name sl value attach => simp only at halt; rw [hmem, halt]; simp

/-- Helper: `contains` on the alt-layer set agrees with membership. -/
theorem altLayers_contains_iff (s : List AltLayer1) :
    s.contains .liquid = true ↔ AltLayer1.liquid ∈ s := by
  induction s with
  | nil => simp
  | cons a rest ih => cases a; simp

/-- **C6.** For a `ContractBuilder` reached by any successful call trace
from `ContractBuilder::with`: the owned-state insertion methods that take a
seal (`add_owned_state`, `add_owned_state_raw`, `serialize_owned_state`)
never fail with `InvalidLayer1` for a Bitcoin-layer seal; for a
Liquid-layer seal they avoid the `InvalidLayer1(Liquid)` error iff the
trace contains an `add_layer1(Liquid)` call — with it no `InvalidLayer1` is
possible, without it each of the three methods fails with exactly
`InvalidLayer1(Liquid)`. -/
theorem contractBuilder_layer_gating
    (issuer : Nat) (iface : Iface) (schema : SchemaModel) (iimpl : IfaceImpl)
    (types : TypeSystemModel) (scripts : Nat) (steps : List CStep)
    (b : ContractBuilder)
    (hb : (ContractBuilder.create issuer iface schema iimpl types
      scripts).applySteps steps = .ok b) :
    (∀ (name : String) (sl : BuilderSeal Nat) (value : Nat) (tyId : Nat)
        (st : State) (attach : Option Nat) (l : Layer1),
      sl.layer1 = .bitcoin →
        b.addOwnedState name sl value attach ≠ .err (.invalidLayer1 l)
        ∧ b.addOwnedStateRaw tyId sl st ≠ .err (.invalidLayer1 l)
        ∧ b.serializeOwnedState name sl value attach ≠ .err (.invalidLayer1 l))
    ∧
    (∀ (name : String) (sl : BuilderSeal Nat) (value : Nat) (tyId : Nat)
        (st : State) (attach : Option Nat),
      sl.layer1 = .liquid →
        (CStep.addLayer1 .liquid ∈ steps →
          ∀ l : Layer1,
            b.addOwnedState name sl value attach ≠ .err (.invalidLayer1 l)
            ∧ b.addOwnedStateRaw tyId sl st ≠ .err (.invalidLayer1 l)
            ∧ b.serializeOwnedState name sl value attach ≠ .err (.invalidLayer1 l))
        ∧ (CStep.addLayer1 .liquid ∉ steps →
          b.addOwnedState name sl value attach = .err (.invalidLayer1 .liquid)
          ∧ b.addOwnedStateRaw tyId sl st = .err (.invalidLayer1 .liquid)
          ∧ b.serializeOwnedState name sl value attach
            = .err (.invalidLayer1 .liquid))) := by
  have hmem : AltLayer1.liquid ∈ b.altLayers1 ↔ CStep.addLayer1 .liquid ∈ steps := by
    have := applyCSteps_altLayers steps _ b hb
    simpa [ContractBuilder.create] using this
  have hok : ∀ lay : Layer1, b.hasLayer1 lay = true → b.checkLayer1 lay = .ok () := by
    intro lay hl
    simp [ContractBuilder.checkLayer1, hl]
  have hno : ∀ (name : String) (sl : BuilderSeal Nat) (value : Nat) (tyId : Nat)
      (st : State) (attach : Option Nat) (l : Layer1),
      b.checkLayer1 sl.layer1 = .ok () →
      b.addOwnedState name sl value attach ≠ .err (.invalidLayer1 l)
      ∧ b.addOwnedStateRaw tyId sl st ≠ .err (.invalidLayer1 l)
      ∧ b.serializeOwnedState name sl value attach ≠ .err (.invalidLayer1 l) := by
    intro name sl value tyId st attach l hc
    refine ⟨?_, ?_, ?_⟩
    · intro h
      rw [ContractBuilder.addOwnedState, hc] at h
      exact OperationBuilder.addOwnedState_no_layer_err _ name sl value attach l
        ((ContractBuilder.lift_err_iff _ _ _).mp h)
    · intro h
      rw [ContractBuilder.addOwnedStateRaw, hc] at h
      exact OperationBuilder.addOwnedStateRaw_no_layer_err _ tyId sl st l
        ((ContractBuilder.lift_err_iff _ _ _).mp h)
    · intro h
      rw [ContractBuilder.serializeOwnedState, hc] at h
      exact OperationBuilder.serializeOwnedState_no_layer_err _ name sl value attach l
        ((ContractBuilder.lift_err_iff _ _ _).mp h)
  refine ⟨?_, ?_⟩
  · intro name sl value tyId st attach l hsl
    exact hno name sl value tyId st attach l (by rw [hsl]; exact hok .bitcoin rfl)
  · intro name sl value tyId st attach hsl
    constructor
    · intro hsteps l
      refine hno name sl value tyId st attach l ?_
      rw [hsl]
      refine hok .liquid ?_
      simp only [ContractBuilder.hasLayer1]
      exact (altLayers_contains_iff _).mpr (hmem.mpr hsteps)
    · intro hsteps
      have hnotmem : AltLayer1.liquid ∉ b.altLayers1 := fun hm => hsteps (hmem.mp hm)
      have hfalse : b.hasLayer1 .liquid = false := by
        simp only [ContractBuilder.hasLayer1]
        rcases hcb : b.altLayers1.contains .liquid
        · rfl
        · exact absurd ((altLayers_contains_iff _).mp hcb) hnotmem
      have hcheck : b.checkLayer1 .liquid = .err (.invalidLayer1 .liquid) := by
        simp [ContractBuilder.checkLayer1, hfalse]
      refine ⟨?_, ?_, ?_⟩
      · rw [ContractBuilder.addOwnedState, hsl, hcheck]
      · rw [ContractBuilder.addOwnedStateRaw, hsl, hcheck]
      · rw [ContractBuilder.serializeOwnedState, hsl, hcheck]

/-- **C6 witness**: concrete evaluations — a Bitcoin seal is never rejected
for its layer; a Liquid seal is accepted after `add_layer1(Liquid)` and
rejected with `InvalidLayer1(Liquid)` without it. -/
theorem contractBuilder_layer_gating_witness :
    (cbW.addOwnedState "right" (.revealed (.bitcoin 0)) 5 none
      ≠ .err (.invalidLayer1 .bitcoin))
    ∧ (cbL.addOwnedState "right" (.revealed (.liquid 0)) 5 none
      ≠ .err (.invalidLayer1 .liquid))
    ∧ (cbW.addOwnedState "right" (.revealed (.liquid 0)) 5 none
      = .err (.invalidLayer1 .liquid)) :=
  ⟨((contractBuilder_layer_gating 0 ifaceW schemaW iimplW typesW 0 [] cbW rfl).1
      "right" (.revealed (.bitcoin 0)) 5 0 { data := [], attach := none } none
      .bitcoin rfl).1,
   (((contractBuilder_layer_gating 0 ifaceW schemaW iimplW typesW 0
      [.addLayer1 .liquid] cbL rfl).2
      "right" (.revealed (.liquid 0)) 5 0 { data := [], attach := none } none
      rfl).1 (by decide) .liquid).1,
   (((contractBuilder_layer_gating 0 ifaceW schemaW iimplW typesW 0 [] cbW rfl).2
      "right" (.revealed (.liquid 0)) 5 0 { data := [], attach := none } none
      rfl).2 (by decide)).1⟩

/-- **C5 counterexample.**  On the concrete builder `cbW`, which never saw
`add_layer1(Liquid)` (so `has_layer1(Liquid)` is false), `add_rights` with
the schema-known assignment name `"right"` and a Liquid seal returns `Ok`
— it does **not** return `InvalidLayer1(Liquid)` as the claim states,
because `ContractBuilder::add_rights` performs no layer-1 check. -/
theorem contractBuilder_add_rights_layer_cex :
    ContractBuilder.hasLayer1 cbW .liquid = false
    ∧ (cbW.addRights "right" (.revealed (.liquid 0)) none).isOk = true
    ∧ cbW.addRights "right" (.revealed (.liquid 0)) none
      ≠ .err (.invalidLayer1 .liquid) := by
  refine ⟨rfl, rfl, fun h => ?_⟩
  exact absurd (congrArg BResult.isOk h) (by decide)

/-- **C5 as amended.**  On any `ContractBuilder` (in particular one on
which `add_layer1(Liquid)` was not called), `add_rights` with an assignment
name known to the schema and any seal — a Liquid seal included — performs
no layer-1 check and succeeds, adding the default-state assignment under
the resolved type. -/
theorem contractBuilder_add_rights_no_layer_check
    (b : ContractBuilder) (name : String) (sl : BuilderSeal Nat)
    (attach : Option Nat) (tyId : Nat)
    (h : alLookup name b.builder.iimpl.assignmentTypes = some tyId) :
    b.addRights name sl attach =
      .ok { b with builder := { b.builder with assignments :=
        (assignmentsPush b.builder.assignments tyId
          (sl, { data := [], attach := attach })) } } := by
  simp [ContractBuilder.addRights, ContractBuilder.lift,
    OperationBuilder.addRights, OperationBuilder.addOwnedStateRaw, h]

/-- **C5 witness**: concrete evaluation of the amended claim on `cbW` with
a Liquid seal. -/
theorem contractBuilder_add_rights_no_layer_check_witness :
    cbW.addRights "right" (.revealed (.liquid 0)) none =
      .ok { cbW with builder := { cbW.builder with assignments :=
        (assignmentsPush cbW.builder.assignments 2
          (.revealed (.liquid 0), { data := [], attach := none })) } } :=
  contractBuilder_add_rights_no_layer_check cbW "right" (.revealed (.liquid 0))
    none 2 (by decide)

/-- Helper: a successful transition-builder lift comes from a successful
inner outcome. -/
theorem transitionBuilder_lift_ok (b : TransitionBuilder)
    (r : BResult (OperationBuilder Nat)) (b₂ : TransitionBuilder)
    (h : b.lift r = .ok b₂) :
    ∃ ob, r = .ok ob ∧ b₂ = { b with builder := ob } := by
  cases r with
  | panicked => simp [TransitionBuilder.lift] at h
  | err e => simp [TransitionBuilder.lift] at h
  | ok ob =>
    refine ⟨ob, rfl, ?_⟩
    simp only [TransitionBuilder.lift, BResult.ok.injEq] at h
    exact h.symm

/-- Helper: unfolding `nonceAfter` over one step. -/
theorem nonceAfter_cons (s : TStep) (rest : List TStep) (n : Nat) :
    nonceAfter (s :: rest) n = nonceAfter rest (s.nonceEffect n) := by
  cases s <;> rfl

/-- Helper: unfolding `inputsAfter` over one step. -/
theorem inputsAfter_cons (s : TStep) (rest : List TStep)
    (ins : List (Opout × State)) :
    inputsAfter (s :: rest) ins = inputsAfter rest (s.inputsEffect ins) := by
  cases s <;> rfl

/-- Helper: one successful `TStep` preserves the contract id, the
transition type and the presence of the calculator, sets the nonce exactly
on `set_nonce`, and extends the inputs exactly on `add_input`. -/
theorem applyTStep_fields (sem : CalcSem) (b : TransitionBuilder) (s : TStep)
    (b₂ : TransitionBuilder)
    (h : TransitionBuilder.applyStep sem b s = .ok b₂) :
    b₂.contractId = b.contractId ∧ b₂.transitionType = b.transitionType
    ∧ b₂.stateCalc.isSome = b.stateCalc.isSome
    ∧ b₂.nonce = s.nonceEffect b.nonce
    ∧ b₂.inputs = s.inputsEffect b.inputs := by
  cases s with
  | setNonce n =>
    simp only [TransitionBuilder.applyStep, TransitionBuilder.setNonce,
      BResult.ok.injEq] at h
    subst h
    exact ⟨rfl, rfl, rfl, rfl, rfl⟩
  | addInput opout st =>
    simp only [TransitionBuilder.applyStep, TransitionBuilder.addInput] at h
    split at h
    case h_1 c heq =>
      split at h
      case h_1 e heq₂ => simp at h
      case h_2 c₂ heq₂ =>
        simp only [BResult.ok.injEq] at h
        subst h
        refine ⟨rfl, rfl, ?_, rfl, rfl⟩
        rw [heq]
        rfl
    case h_2 heq =>
      simp only [BResult.ok.injEq] at h
      subst h
      exact ⟨rfl, rfl, rfl, rfl, rfl⟩
  | addMetadata name value =>
    simp only [TransitionBuilder.applyStep, TransitionBuilder.addMetadata] at h
    obtain ⟨ob, _, hb⟩ := transitionBuilder_lift_ok _ _ _ h
    subst hb
    exact ⟨rfl, rfl, rfl, rfl, rfl⟩
  | serializeMetadata name value =>
    simp only [TransitionBuilder.applyStep, TransitionBuilder.serializeMetadata] at h
    obtain ⟨ob, _, hb⟩ := transitionBuilder_lift_ok _ _ _ h
    subst hb
    exact ⟨rfl, rfl, rfl, rfl, rfl⟩
  | addGlobalState name value =>
    simp only [TransitionBuilder.applyStep, TransitionBuilder.addGlobalState] at h
    obtain ⟨ob, _, hb⟩ := transitionBuilder_lift_ok _ _ _ h
    subst hb
    exact ⟨rfl, rfl, rfl, rfl, rfl⟩
  | serializeGlobalState name value =>
    simp only [TransitionBuilder.applyStep, TransitionBuilder.serializeGlobalState] at h
    obtain ⟨ob, _, hb⟩ := transitionBuilder_lift_ok _ _ _ h
    subst hb
    exact ⟨rfl, rfl, rfl, rfl, rfl⟩
  | addOwnedStateBlank tyId sl st =>
    simp only [TransitionBuilder.applyStep, TransitionBuilder.addOwnedStateBlank] at h
    obtain ⟨ob, _, hb⟩ := transitionBuilder_lift_ok _ _ _ h
    subst hb
    exact ⟨rfl, rfl, rfl, rfl, rfl⟩
  | addRights name sl attach =>
    simp only [TransitionBuilder.applyStep, TransitionBuilder.addRights] at h
    obtain ⟨ob, _, hb⟩ := transitionBuilder_lift_ok _ _ _ h
    subst hb
    exact ⟨rfl, rfl, rfl, rfl, rfl⟩
  | fulfillOwnedState tyId sl st =>
    simp only [TransitionBuilder.applyStep] at h
    split at h
    case h_1 b₃ res heq =>
      simp only [BResult.ok.injEq] at h
      subst h
      simp only [TransitionBuilder.fulfillOwnedState,
        OperationBuilder.addOwnedStateRaw] at heq
      split at heq
      case h_1 hcalc => simp at heq
      case h_2 c hcalc =>
        split at heq
        case h_1 e heq₂ => simp at heq
        case h_2 suff insuff heq₂ =>
          simp only [BResult.ok.injEq, Prod.mk.injEq] at heq
          obtain ⟨hb₃, _⟩ := heq
          subst hb₃
          exact ⟨rfl, rfl, rfl, rfl, rfl⟩
    case h_2 e heq => simp at h
    case h_3 heq => simp at h
  | addOwnedStateChange tyId sl =>
    simp only [TransitionBuilder.applyStep, TransitionBuilder.addOwnedStateChange] at h
    split at h
    case h_1 hcalc => simp at h
    case h_2 c hcalc =>
      split at h
      case h_1 e heq₂ => simp at h
      case h_2 heq₂ =>
        simp only [BResult.ok.injEq] at h
        subst h
        exact ⟨rfl, rfl, rfl, rfl, rfl⟩
      case h_3 st heq₂ =>
        obtain ⟨ob, _, hb⟩ := transitionBuilder_lift_ok _ _ _ h
        subst hb
        exact ⟨rfl, rfl, rfl, rfl, rfl⟩

/-- Helper: across a successful `TStep` trace, the contract id, the
transition type and the presence of the calculator are preserved, the
nonce follows the last `set_nonce`, and the inputs map accumulates the
`add_input` insertions. -/
theorem applyTSteps_fields (sem : CalcSem) (steps : List TStep) :
    ∀ b b₂ : TransitionBuilder,
    TransitionBuilder.applySteps sem b steps = .ok b₂ →
    b₂.contractId = b.contractId ∧ b₂.transitionType = b.transitionType
    ∧ b₂.stateCalc.isSome = b.stateCalc.isSome
    ∧ b₂.nonce = nonceAfter steps b.nonce
    ∧ b₂.inputs = inputsAfter steps b.inputs := by
  induction steps with
  | nil =>
    intro b b₂ h
    simp only [TransitionBuilder.applySteps, BResult.ok.injEq] at h
    subst h
    exact ⟨rfl, rfl, rfl, rfl, rfl⟩
  | cons s rest ih =>
    intro b b₂ h
    simp only [TransitionBuilder.applySteps] at h
    split at h
    case h_1 b₁ heq =>
      obtain ⟨h1, h2, h3, h4, h5⟩ := applyTStep_fields sem b s b₁ heq
      obtain ⟨g1, g2, g3, g4, g5⟩ := ih b₁ b₂ h
      refine ⟨g1.trans h1, g2.trans h2, g3.trans h3, ?_, ?_⟩
      · rw [g4, h4, nonceAfter_cons]
      · rw [g5, h5, inputsAfter_cons]
    case h_2 e heq => simp at h
    case h_3 heq => simp at h

/-- **C7.** For every `TransitionBuilder` reached by a successful call
trace from the builder constructor, `complete_transition()` succeeds and
returns a `Transition` whose metadata is empty (even when `add_metadata` or
`serialize_metadata` appear in the trace), whose valencies set is empty,
whose witness is absent, whose contract id and transition type are those
the builder was constructed with, whose inputs are exactly the keys
accumulated by the `add_input` calls of the trace, and whose nonce is the
argument of the last `set_nonce` — `u64::MAX` when there is none. -/
theorem transitionBuilder_complete_fields
    (sem : CalcSem) (cid : ContractId) (iface : Iface) (schema : SchemaModel)
    (iimpl : IfaceImpl) (ty : Nat) (types : TypeSystemModel)
    (calcOpt : Option StateCalc) (steps : List TStep) (b : TransitionBuilder)
    (hb : TransitionBuilder.applySteps sem
      (TransitionBuilder.create cid iface schema iimpl ty types calcOpt)
      steps = .ok b) :
    b.completeTransition = .ok
      { contractId := cid, nonce := nonceAfter steps u64Max,
        transitionType := ty, metadata := [], globals := b.builder.global,
        inputs := (inputsAfter steps []).map Prod.fst,
        assignments := b.builder.assignments, valencies := [],
        witness := none, validator := none } := by
  obtain ⟨h1, h2, h3, h4, h5⟩ := applyTSteps_fields sem steps _ b hb
  simp [TransitionBuilder.completeTransition, TransitionBuilder.create, h1, h2, h4, h5]

/-- **C7 witness**: concrete trace — `add_metadata`, then `set_nonce 3`,
then one `add_input` — whose completed transition has empty metadata,
nonce 3 and exactly the one input key. -/
theorem transitionBuilder_complete_fields_witness :
    TransitionBuilder.applySteps semW
      (TransitionBuilder.create cidW ifaceW schemaW iimplW 4 typesW none)
      stepsW = .ok tbW2
    ∧ tbW2.completeTransition = .ok
      { contractId := cidW, nonce := 3, transitionType := 4, metadata := [],
        globals := tbW2.builder.global, inputs := [⟨1, 2, 0⟩],
        assignments := tbW2.builder.assignments, valencies := [],
        witness := none, validator := none } :=
  ⟨rfl, transitionBuilder_complete_fields semW cidW ifaceW schemaW iimplW 4
    typesW none stepsW tbW2 rfl⟩

/-- Helper: `fulfill_owned_state` cannot reach the panic branch when the
calculator is present. -/
theorem fulfill_no_panic_of_some (sem : CalcSem) (b : TransitionBuilder)
    (tyId : Nat) (sl : BuilderSeal Nat) (st : State)
    (h : b.stateCalc.isSome = true) :
    TransitionBuilder.fulfillOwnedState sem b tyId sl st ≠ .panicked := by
  obtain ⟨c, hc⟩ := Option.isSome_iff_exists.mp h
  intro hcontra
  simp only [TransitionBuilder.fulfillOwnedState, hc,
    OperationBuilder.addOwnedStateRaw] at hcontra
  split at hcontra <;> simp_all

/-- Helper: `add_owned_state_change` cannot reach the panic branch when the
calculator is present. -/
theorem change_no_panic_of_some (sem : CalcSem) (b : TransitionBuilder)
    (tyId : Nat) (sl : BuilderSeal Nat)
    (h : b.stateCalc.isSome = true) :
    TransitionBuilder.addOwnedStateChange sem b tyId sl ≠ .panicked := by
  obtain ⟨c, hc⟩ := Option.isSome_iff_exists.mp h
  intro hcontra
  simp only [TransitionBuilder.addOwnedStateChange, hc, TransitionBuilder.lift,
    OperationBuilder.addOwnedStateRaw] at hcontra
  split at hcontra <;> simp_all

/-- **C8.** `fulfill_owned_state` and `add_owned_state_change` panic on a
builder made by `blank_transition` (which carries no `StateCalc`); on any
builder reached by a successful trace from `default_transition` or
`named_transition` the calculator is present, the panic branch is
unreachable, and every failure of the two methods is an ordinary
`BuilderError` return. -/
theorem transitionBuilder_calc_partition
    (sem : CalcSem) (cid : ContractId) (iface : Iface) (schema : SchemaModel)
    (iimpl : IfaceImpl) (types : TypeSystemModel) (scripts : Nat)
    (tname : String) :
    (∀ (tyId : Nat) (sl : BuilderSeal Nat) (st : State),
      TransitionBuilder.fulfillOwnedState sem
        (TransitionBuilder.blankTransition cid iface schema iimpl types)
        tyId sl st = .panicked
      ∧ TransitionBuilder.addOwnedStateChange sem
        (TransitionBuilder.blankTransition cid iface schema iimpl types)
        tyId sl = .panicked)
    ∧
    (∀ (b₀ : TransitionBuilder) (steps : List TStep) (b : TransitionBuilder),
      TransitionBuilder.defaultTransition sem cid iface schema iimpl types
        scripts = .ok b₀ →
      TransitionBuilder.applySteps sem b₀ steps = .ok b →
      b.stateCalc.isSome = true
      ∧ (∀ (tyId : Nat) (sl : BuilderSeal Nat) (st : State),
          TransitionBuilder.fulfillOwnedState sem b tyId sl st ≠ .panicked)
      ∧ (∀ (tyId : Nat) (sl : BuilderSeal Nat),
          TransitionBuilder.addOwnedStateChange sem b tyId sl ≠ .panicked))
    ∧
    (∀ (b₀ : TransitionBuilder) (steps : List TStep) (b : TransitionBuilder),
      TransitionBuilder.namedTransition sem cid iface schema iimpl tname types
        scripts = .ok b₀ →
      TransitionBuilder.applySteps sem b₀ steps = .ok b →
      b.stateCalc.isSome = true
      ∧ (∀ (tyId : Nat) (sl : BuilderSeal Nat) (st : State),
          TransitionBuilder.fulfillOwnedState sem b tyId sl st ≠ .panicked)
      ∧ (∀ (tyId : Nat) (sl : BuilderSeal Nat),
          TransitionBuilder.addOwnedStateChange sem b tyId sl ≠ .panicked)) := by
  refine ⟨fun tyId sl st => ⟨rfl, rfl⟩, ?_, ?_⟩
  · intro b₀ steps b h₀ hsteps
    have hb0 : b₀.stateCalc.isSome = true := by
      simp only [TransitionBuilder.defaultTransition] at h₀
      split at h₀
      · simp at h₀
      · split at h₀
        · simp at h₀
        · simp only [BResult.ok.injEq] at h₀
          subst h₀
          rfl
    have hsome : b.stateCalc.isSome = true :=
      ((applyTSteps_fields sem steps b₀ b hsteps).2.2.1).trans hb0
    exact ⟨hsome, fun tyId sl st => fulfill_no_panic_of_some sem b tyId sl st hsome,
      fun tyId sl => change_no_panic_of_some sem b tyId sl hsome⟩
  · intro b₀ steps b h₀ hsteps
    have hb0 : b₀.stateCalc.isSome = true := by
      simp only [TransitionBuilder.namedTransition] at h₀
      split at h₀
      · simp at h₀
      · simp only [BResult.ok.injEq] at h₀
        subst h₀
        rfl
    have hsome : b.stateCalc.isSome = true :=
      ((applyTSteps_fields sem steps b₀ b hsteps).2.2.1).trans hb0
    exact ⟨hsome, fun tyId sl st => fulfill_no_panic_of_some sem b tyId sl st hsome,
      fun tyId sl => change_no_panic_of_some sem b tyId sl hsome⟩

/-- **C8 witness**: concrete evaluations — the blank builder panics on
`fulfill_owned_state`; the `default_transition` builder carries a
calculator and neither method panics on it. -/
theorem transitionBuilder_calc_partition_witness :
    TransitionBuilder.fulfillOwnedState semW
      (TransitionBuilder.blankTransition cidW ifaceW schemaW iimplW typesW)
      2 (.revealed (.bitcoin 0)) { data := [5], attach := none } = .panicked
    ∧ TransitionBuilder.defaultTransition semW cidW ifaceW schemaW iimplW
        typesW 0 = .ok tbW
    ∧ tbW.stateCalc.isSome = true
    ∧ TransitionBuilder.fulfillOwnedState semW tbW 2 (.revealed (.bitcoin 0))
        { data := [5], attach := none } ≠ .panicked :=
  ⟨((transitionBuilder_calc_partition semW cidW ifaceW schemaW iimplW typesW 0
      "tr").1 2 (.revealed (.bitcoin 0)) { data := [5], attach := none }).1,
   rfl,
   ((transitionBuilder_calc_partition semW cidW ifaceW schemaW iimplW typesW 0
      "tr").2.1 tbW [] tbW rfl rfl).1,
   ((transitionBuilder_calc_partition semW cidW ifaceW schemaW iimplW typesW 0
      "tr").2.1 tbW [] tbW rfl rfl).2.1 2 (.revealed (.bitcoin 0))
      { data := [5], attach := none }⟩
